import Mathlib

/-!
BMM050 magnetometer driver (`drivers/input/misc/bmm050_driver.c`)

A shallow embedding of the driver's control core.

* C integers are `Int`s; every narrowing conversion of the source (a `long` stored into the
  4-bit field `op_mode`, an `unsigned long` stored into an `int`, ...) is an explicit
  `wrapS`/`wrapU`.
* The chip API (`bmm050_*`), the bus transport and `mdelay` are external.  Every call is
  appended to a trace, and its result is read from an arbitrary oracle `hw : Nat → Resp`
  indexed by the position of the call in the trace, so that a theorem quantified over `hw`
  covers every pattern of hardware outcomes.
* The mutexes are not modelled: each driver entry point is one sequential step.
* The delayed work `client_data->work` is the field `work`: `some d` when a run is pending,
  armed with `msecs_to_jiffies(d)`, and `none` otherwise.
-/

namespace Bmm050

/-! ## Machine integers -/

/-- Conversion to an unsigned integer type of `bits` bits. -/
def wrapU (bits : Nat) (x : Int) : Int := x % (2 : Int) ^ bits

/-- Conversion to a signed (two's complement) integer type of `bits` bits. -/
def wrapS (bits : Nat) (x : Int) : Int :=
  if x % (2 : Int) ^ bits < (2 : Int) ^ (bits - 1) then x % (2 : Int) ^ bits
  else x % (2 : Int) ^ bits - (2 : Int) ^ bits

/-! ## Constants -/

/-- Linux `EIO`. -/
def EIO : Int := 5
/-- Linux `ENOMEM`. -/
def ENOMEM : Int := 12
/-- Linux `EBUSY`. -/
def EBUSY : Int := 16
/-- Linux `EINVAL`. -/
def EINVAL : Int := 22

def SENSOR_CHIP_ID_BMM : Int := 0x32
def CHECK_CHIP_ID_TIME_MAX : Nat := 5
def BMM_I2C_WRITE_DELAY_TIME : Int := 5
def BMM_MAX_RETRY_WAKEUP : Nat := 5
def BMM_DELAY_MIN : Int := 1
def BMM_DELAY_DEFAULT : Int := 200
def BMM_SELF_TEST : Int := 1
def BMM_ADV_TEST : Int := 2
def BMM_OP_MODE_UNKNOWN : Int := -1
def BOSCH_SENSOR_PLACE_UNKNOWN : Int := -1
def MAX_AXIS_REMAP_TAB_SZ : Int := 8

/-- The parts of the build that the driver source does not fix: the constants it takes from the
chip API header `bmm050.h` through `BMM_VAL_NAME` (the header is not among the sources), and
whether `DEBUG` is defined.  Every definition below takes them as a parameter. -/
structure Config where
  NORMAL_MODE : Int
  FORCED_MODE : Int
  SUSPEND_MODE : Int
  SLEEP_MODE : Int
  REGULAR_REPXY : Int
  REGULAR_REPZ : Int
  REGULAR_DR : Int
  DEBUG : Bool
  deriving DecidableEq, Repr

/-- What the driver relies on when it keeps a mode code in the signed 4-bit field `op_mode` and
compares the field with the codes: the four codes are distinct and each fits the non-negative
range of that field. -/
def Config.WF (c : Config) : Prop :=
  (0 ≤ c.NORMAL_MODE ∧ c.NORMAL_MODE ≤ 7) ∧ (0 ≤ c.FORCED_MODE ∧ c.FORCED_MODE ≤ 7) ∧
  (0 ≤ c.SUSPEND_MODE ∧ c.SUSPEND_MODE ≤ 7) ∧ (0 ≤ c.SLEEP_MODE ∧ c.SLEEP_MODE ≤ 7) ∧
  c.NORMAL_MODE ≠ c.FORCED_MODE ∧ c.NORMAL_MODE ≠ c.SUSPEND_MODE ∧
  c.NORMAL_MODE ≠ c.SLEEP_MODE ∧ c.FORCED_MODE ≠ c.SUSPEND_MODE ∧
  c.FORCED_MODE ≠ c.SLEEP_MODE ∧ c.SUSPEND_MODE ≠ c.SLEEP_MODE

instance (c : Config) : Decidable c.WF := by unfold Config.WF; infer_instance

/-- The configuration used for concrete runs: mode codes 0, 1, 2, 3 for Normal, Forced, Suspend
and Sleep, default repetitions 4 and 14, default rate 0, no `DEBUG`. -/
def cfg0 : Config :=
  { NORMAL_MODE := 0, FORCED_MODE := 1, SUSPEND_MODE := 2, SLEEP_MODE := 3,
    REGULAR_REPXY := 4, REGULAR_REPZ := 14, REGULAR_DR := 0, DEBUG := false }

/-- `odr_map`. -/
def odr_map : List Int := [10, 2, 6, 8, 15, 20, 25, 30]

/-- `op_mode_maps`. -/
def op_mode_maps (c : Config) : List Int :=
  [c.NORMAL_MODE, c.FORCED_MODE, c.SUSPEND_MODE, c.SLEEP_MODE]

/-! ## Data model -/

/-- `struct bmm050_mdata_s32` as the driver uses it: three `s32` components, and the data-ready
flag `drdy` (the fourth member, between them, is never read by the driver). -/
structure bmm050_mdata_s32 where
  datax : Int
  datay : Int
  dataz : Int
  resistance : Int
  drdy : Int
  deriving DecidableEq, Repr

/-- `struct bmm_client_data` without the mutexes and the pointers to kernel objects.
`bst_pd` is `none` for a NULL pointer and otherwise holds `bst_pd->place`. -/
structure bmm_client_data where
  work : Option Int
  delay : Int
  in_suspend : Int
  value : bmm050_mdata_s32
  enable : Int
  op_mode : Int
  odr : Int
  rept_xy : Int
  rept_z : Int
  result_test : Int
  bst_pd : Option Int
  deriving DecidableEq, Repr

/-- Chip registers the driver addresses directly. -/
inductive Reg where
  | CHIP_ID
  | POWER_CNTL
  | CONTROL
  | NO_REPETITIONS_XY
  | NO_REPETITIONS_Z
  deriving DecidableEq, Repr

/-- The axes of the input device. -/
inductive AbsAxis where
  | ABS_X
  | ABS_Y
  | ABS_Z
  deriving DecidableEq, Repr

/-- One call that leaves the driver: a bus transfer, a chip API call, a busy wait, or a report
to the input subsystem. -/
inductive HwCall where
  | i2c_write (reg : Reg) (value : Int)
  | i2c_read (reg : Reg) (len : Int)
  | init
  | set_functional_state (op_mode : Int)
  | get_functional_state
  | get_powermode
  | set_datarate (odr : Int)
  | get_datarate
  | set_repetitions_XY (v : Int)
  | get_repetitions_XY
  | set_repetitions_Z (v : Int)
  | get_repetitions_Z
  | read_mdataXYZ_s32
  | get_raw_xyz
  | set_selftest (v : Int)
  | get_self_test_XYZ
  | perform_advanced_selftest
  | soft_reset
  | mdelay (msec : Int)
  | input_report_abs (axis : AbsAxis) (value : Int)
  | input_sync
  deriving DecidableEq, Repr

/-- What a call hands back: its return code, the byte or word it stores through its out
pointer, and the sample it stores (for the sample reads). -/
structure Resp where
  err : Int
  data : Int
  sample : bmm050_mdata_s32
  deriving DecidableEq, Repr

/-- The hardware: the response to the call made at each position of the trace. -/
abbrev Hw := Nat → Resp

/-- The driver instance seen by the endpoints and hooks: its `client_data` and the calls issued
so far, oldest first. -/
structure World where
  cd : bmm_client_data
  trace : List HwCall
  deriving DecidableEq, Repr

/-- Issue one call: record it and read its response. -/
def hwcall (hw : Hw) (call : HwCall) (t : List HwCall) : Resp × List HwCall :=
  (hw t.length, t ++ [call])

/-- Issue one call from a `World`. -/
def World.call (hw : Hw) (call : HwCall) (w : World) : Resp × World :=
  ((hwcall hw call w.trace).1, { w with trace := (hwcall hw call w.trace).2 })

/-- `mdelay(msec)`. -/
def mdelay (hw : Hw) (msec : Int) (w : World) : World :=
  (w.call hw (.mdelay msec)).2

/-- `schedule_delayed_work`: a work that is already pending keeps its timer. -/
def schedule_delayed_work (work : Option Int) (delay : Int) : Option Int :=
  match work with
  | some d => some d
  | none => some delay

/-- `cancel_delayed_work_sync`: nothing is pending afterwards. -/
def cancel_delayed_work_sync (_work : Option Int) : Option Int := none

/-! ## Forced acquisition time -/

/-- `bmm_get_forced_drdy_time`, every operation in 32-bit `int` arithmetic (`/` of C truncates
towards zero). -/
def bmm_get_forced_drdy_time (rept_xy rept_z : Int) : Int :=
  Int.tdiv
    (wrapS 32 (wrapS 32 (wrapS 32 (wrapS 32 (145 * rept_xy) + wrapS 32 (500 * rept_z)) + 980)
      + (1000 - 1)))
    1000

/-! ## Mode controller -/

/-- `bmm_set_forced_mode`: one write of 0x02 to the control register. -/
def bmm_set_forced_mode (hw : Hw) (w : World) : Int × World :=
  let r := w.call hw (.i2c_write .CONTROL 0x02)
  (r.1.err, r.2)

/-- `bmm_get_op_mode_idx`.  Its parameter is a `u8`: the argument is converted at the call. -/
def bmm_get_op_mode_idx (c : Config) (op_mode : Int) : Int :=
  let i := (op_mode_maps c).findIdx (fun m => m == wrapU 8 op_mode)
  if i < (op_mode_maps c).length then (i : Int) else -1

/-- `bmm_set_op_mode`.  Its parameter `op_mode` is an `int`. -/
def bmm_set_op_mode (c : Config) (hw : Hw) (op_mode : Int) (w : World) : Int × World :=
  let r := w.call hw (.set_functional_state op_mode)
  let in_suspend : Int := if c.SUSPEND_MODE = op_mode then 1 else 0
  (r.1.err, { r.2 with cd := { r.2.cd with in_suspend := in_suspend } })

/-- `bmm_op_mode_store`.  `buf` is the outcome of `kstrtoul(buf, 10, &op_mode)`: its error, or
the parsed `unsigned long`, which lands in the `long op_mode`. -/
def bmm_op_mode_store (c : Config) (hw : Hw) (buf : Except Int Nat) (count : Nat) (w : World) :
    Int × World :=
  match buf with
  | .error e => (e, w)
  | .ok v =>
    let op_mode : Int := wrapS 64 v
    let i := bmm_get_op_mode_idx c op_mode
    let r : Int × World :=
      if i ≠ -1 then
        if op_mode ≠ w.cd.op_mode then
          let r :=
            if c.FORCED_MODE = op_mode then bmm_set_forced_mode hw w
            else bmm_set_op_mode c hw (wrapS 32 op_mode) w
          if r.1 = 0 then
            if c.FORCED_MODE = op_mode then
              (r.1, { r.2 with cd := { r.2.cd with op_mode := wrapS 4 BMM_OP_MODE_UNKNOWN } })
            else
              (r.1, { r.2 with cd := { r.2.cd with op_mode := wrapS 4 op_mode } })
          else r
        else (0, w)
      else (- EINVAL, w)
    if r.1 ≠ 0 then (r.1, r.2) else ((count : Int), r.2)

/-! ## Restore, suspend and resume -/

/-- `bmm_dump_reg`: a 64-byte register read when `DEBUG` is defined, nothing otherwise. -/
def bmm_dump_reg (c : Config) (hw : Hw) (t : List HwCall) : List HwCall :=
  if c.DEBUG then (hwcall hw (.i2c_read .CHIP_ID 64) t).2 else t

/-- `bmm_restore_hw_cfg`. -/
def bmm_restore_hw_cfg (c : Config) (hw : Hw) (w : World) : Int × World :=
  let r1 := bmm_set_op_mode c hw c.SLEEP_MODE w
  let r2 :=
    if bmm_get_op_mode_idx c r1.2.cd.op_mode ≠ -1 then bmm_set_op_mode c hw r1.2.cd.op_mode r1.2
    else r1
  let op_mode := r2.2.cd.op_mode
  if c.SUSPEND_MODE = op_mode then r2
  else
    let w3 := (r2.2.call hw (.set_datarate r2.2.cd.odr)).2
    let w4 := mdelay hw BMM_I2C_WRITE_DELAY_TIME w3
    let w5 := (w4.call hw (.i2c_write .NO_REPETITIONS_XY w4.cd.rept_xy)).2
    let w6 := mdelay hw BMM_I2C_WRITE_DELAY_TIME w5
    let w7 := (w6.call hw (.i2c_read .NO_REPETITIONS_XY 1)).2
    let w8 := (w7.call hw (.i2c_write .NO_REPETITIONS_Z w7.cd.rept_z)).2
    let w9 := mdelay hw BMM_I2C_WRITE_DELAY_TIME w8
    let r10 := w9.call hw (.i2c_read .NO_REPETITIONS_Z 1)
    let w11 :=
      if r10.2.cd.op_mode = BMM_OP_MODE_UNKNOWN then
        mdelay hw (bmm_get_forced_drdy_time r10.2.cd.rept_xy r10.2.cd.rept_z)
          (bmm_set_forced_mode hw r10.2).2
      else r10.2
    (r10.1.err, { w11 with trace := bmm_dump_reg c hw w11.trace })

/-- `bmm_pre_suspend`. -/
def bmm_pre_suspend (w : World) : Int × World :=
  if w.cd.enable ≠ 0 then
    (0, { w with cd := { w.cd with work := cancel_delayed_work_sync w.cd.work } })
  else (0, w)

/-- `bmm_post_resume`. -/
def bmm_post_resume (w : World) : Int × World :=
  if w.cd.enable ≠ 0 then
    (0, { w with cd := { w.cd with work := schedule_delayed_work w.cd.work w.cd.delay } })
  else (0, w)

/-- `bmm_suspend`. -/
def bmm_suspend (c : Config) (hw : Hw) (w : World) : Int × World :=
  let r := w.call hw .get_powermode
  let power_mode := wrapU 8 r.1.data
  if power_mode ≠ 0 then
    let r1 := bmm_pre_suspend r.2
    bmm_set_op_mode c hw c.SUSPEND_MODE r1.2
  else (0, r.2)

/-- `bmm_resume`. -/
def bmm_resume (c : Config) (hw : Hw) (w : World) : Int × World :=
  let r := bmm_restore_hw_cfg c hw w
  (r.1, (bmm_post_resume r.2).2)

/-! ## Sampling endpoints -/

/-- `bmm_enable_store`. -/
def bmm_enable_store (buf : Except Int Nat) (count : Nat) (w : World) : Int × World :=
  match buf with
  | .error e => (e, w)
  | .ok v =>
    let data : Int := if wrapU 64 v ≠ 0 then 1 else 0
    if data ≠ w.cd.enable then
      let work :=
        if data ≠ 0 then schedule_delayed_work w.cd.work w.cd.delay
        else cancel_delayed_work_sync w.cd.work
      ((count : Int), { w with cd := { w.cd with work := work, enable := wrapU 1 data } })
    else ((count : Int), w)

/-- `bmm_delay_store`.  `atomic_set` takes an `int`. -/
def bmm_delay_store (buf : Except Int Nat) (count : Nat) (w : World) : Int × World :=
  match buf with
  | .error e => (e, w)
  | .ok v =>
    let data : Int := wrapU 64 v
    if data = 0 then (- EINVAL, w)
    else
      let data := if data < BMM_DELAY_MIN then BMM_DELAY_MIN else data
      ((count : Int), { w with cd := { w.cd with delay := wrapS 32 data } })

/-! ## Attach -/

/-- What `bmm_probe` gets from the kernel besides the bus: the adapter functionality check, the
platform data of the client (`none` for NULL, otherwise its `place`), and the outcomes of the
allocations and registrations. -/
structure ProbeEnv where
  i2c_check_functionality : Bool
  platform_data : Option Int
  kzalloc_client_data : Bool
  kzalloc_bst_pd : Bool
  input_allocate_device : Bool
  input_register_device : Int
  sysfs_create_group : Int
  deriving DecidableEq, Repr

/-- The driver as the lifecycle hooks see it: the singleton `bmm_client` (the identity of the
client it points to, `none` for NULL), the driver data of the client handed to the hook (`none`
for NULL or freed), and the calls issued so far. -/
structure Driver where
  bmm_client : Option Nat
  clientdata : Option bmm_client_data
  trace : List HwCall
  deriving DecidableEq, Repr

/-- The loop of `bmm_wakeup`, from `try_times` tries left; returns the tries left at exit. -/
def bmm_wakeup_loop (hw : Hw) : Nat → List HwCall → Nat × List HwCall
  | 0, t => (0, t)
  | n + 1, t =>
    let t1 := (hwcall hw (.i2c_write .POWER_CNTL 0x01) t).2
    let t2 := (hwcall hw (.mdelay BMM_I2C_WRITE_DELAY_TIME) t1).2
    let r3 := hwcall hw (.i2c_read .POWER_CNTL 1) t2
    if (0x01 : Int) = wrapU 8 r3.1.data then (n + 1, r3.2) else bmm_wakeup_loop hw n r3.2

/-- `bmm_wakeup`. -/
def bmm_wakeup (hw : Hw) (t : List HwCall) : Int × List HwCall :=
  let t0 := (hwcall hw (.mdelay BMM_I2C_WRITE_DELAY_TIME) t).2
  let r := bmm_wakeup_loop hw BMM_MAX_RETRY_WAKEUP t0
  (if r.1 > 0 then 0 else -1, r.2)

/-- The loop of `bmm_check_chip_id`, with `n` reads left and the current `err`. -/
def bmm_check_chip_id_loop (hw : Hw) : Nat → Int → List HwCall → Int × List HwCall
  | 0, err, t => (err, t)
  | n + 1, _, t =>
    let r := hwcall hw (.i2c_read .CHIP_ID 1) t
    if r.1.err ≠ 0 then (r.1.err, r.2)
    else if wrapU 8 r.1.data % 256 ≠ SENSOR_CHIP_ID_BMM then
      bmm_check_chip_id_loop hw n r.1.err (hwcall hw (.mdelay 1) r.2).2
    else (0, r.2)

/-- `bmm_check_chip_id`. -/
def bmm_check_chip_id (hw : Hw) (t : List HwCall) : Int × List HwCall :=
  bmm_check_chip_id_loop hw CHECK_CHIP_ID_TIME_MAX (-1) t

/-- `bmm_input_init`: its return value. -/
def bmm_input_init (env : ProbeEnv) : Int :=
  if ¬ env.input_allocate_device then - ENOMEM
  else if env.input_register_device < 0 then env.input_register_device
  else 0

/-- The `client_data` at the successful end of `bmm_probe`, before the final mode write:
`kzalloc` zeroes it, then the probe sets the fields. -/
def probe_client_data (c : Config) (env : ProbeEnv) : bmm_client_data :=
  { work := none
    delay := BMM_DELAY_DEFAULT
    in_suspend := 0
    value := { datax := 0, datay := 0, dataz := 0, resistance := 0, drdy := 0 }
    enable := 0
    op_mode := wrapS 4 c.SUSPEND_MODE
    odr := wrapU 8 c.REGULAR_DR
    rept_xy := wrapU 8 c.REGULAR_REPXY
    rept_z := wrapU 8 c.REGULAR_REPZ
    result_test := 0
    bst_pd := if env.kzalloc_bst_pd then env.platform_data else none }

/-- The error exit of `bmm_probe` (`exit_err_clean` with `err` set) while the local
`client_data` is still NULL: the singleton is cleared. -/
def probe_fail_early (err : Int) (d : Driver) (t : List HwCall) : Int × Driver :=
  (err, { d with bmm_client := none, trace := t })

/-- The error exit of `bmm_probe` (`exit_err_clean` with `err` set) once `client_data` is
allocated and installed: it is freed and the singleton is cleared. -/
def probe_fail (err : Int) (d : Driver) (t : List HwCall) : Int × Driver :=
  (err, { d with bmm_client := none, clientdata := none, trace := t })

/-- `bmm_probe` for the client `client`. -/
def bmm_probe (c : Config) (hw : Hw) (env : ProbeEnv) (client : Nat) (d : Driver) :
    Int × Driver :=
  if ¬ env.i2c_check_functionality then
    probe_fail_early (- EIO) d d.trace
  else if d.bmm_client ≠ none then (- EBUSY, d)
  else
    let r1 := bmm_wakeup hw d.trace
    if r1.1 < 0 then probe_fail_early (- EIO) d r1.2
    else
      let t2 := bmm_dump_reg c hw r1.2
      let r3 := bmm_check_chip_id hw t2
      if r3.1 ≠ 0 then probe_fail_early (-1) d r3.2
      else if ¬ env.kzalloc_client_data then probe_fail_early (- ENOMEM) d r3.2
      else if bmm_input_init env < 0 then probe_fail (bmm_input_init env) d r3.2
      else if env.sysfs_create_group < 0 then probe_fail env.sysfs_create_group d r3.2
      else
        let t4 := (hwcall hw .init r3.2).2
        let t5 := bmm_dump_reg c hw t4
        let r6 := bmm_set_op_mode c hw c.SUSPEND_MODE { cd := probe_client_data c env, trace := t5 }
        if r6.1 ≠ 0 then probe_fail (- EIO) d r6.2.trace
        else (0, { bmm_client := some client, clientdata := some r6.2.cd, trace := r6.2.trace })

/-- The driver before any attach. -/
def Driver.init : Driver := { bmm_client := none, clientdata := none, trace := [] }

/-! ## Axis remapping -/

/-- `struct bosch_sensor_axis_remap`. -/
structure bosch_sensor_axis_remap where
  src_x : Int
  src_y : Int
  src_z : Int
  sign_x : Int
  sign_y : Int
  sign_z : Int
  deriving DecidableEq, Repr

/-- An initialiser of `struct bosch_sensor_axis_remap`: the `src_*` members are signed 3-bit
fields and the `sign_*` members signed 2-bit fields. -/
def remap_entry (src_x src_y src_z sign_x sign_y sign_z : Int) : bosch_sensor_axis_remap :=
  { src_x := wrapS 3 src_x, src_y := wrapS 3 src_y, src_z := wrapS 3 src_z,
    sign_x := wrapS 2 sign_x, sign_y := wrapS 2 sign_y, sign_z := wrapS 2 sign_z }

/-- `struct bosch_sensor_data`: three `int16_t`, also seen as the array `v[3]`. -/
structure bosch_sensor_data where
  x : Int
  y : Int
  z : Int
  deriving DecidableEq, Repr

/-- The member `v[i]` of `struct bosch_sensor_data` (an index outside `0..2` is outside the
array; no table entry has one). -/
def bosch_sensor_data.v (data : bosch_sensor_data) (i : Int) : Int :=
  if i = 0 then data.x else if i = 1 then data.y else if i = 2 then data.z else 0

/-- `bst_axis_remap_tab_dft`, P0 to P7. -/
def bst_axis_remap_tab_dft : List bosch_sensor_axis_remap :=
  [ remap_entry 0 1 2 1 1 1,
    remap_entry 1 0 2 1 (-1) 1,
    remap_entry 0 1 2 (-1) (-1) 1,
    remap_entry 1 0 2 (-1) 1 1,
    remap_entry 0 1 2 (-1) 1 (-1),
    remap_entry 1 0 2 (-1) (-1) (-1),
    remap_entry 0 1 2 1 (-1) (-1),
    remap_entry 1 0 2 1 1 (-1) ]

/-- `bst_remap_sensor_data`: each product is computed in `int` and stored into an `int16_t`. -/
def bst_remap_sensor_data (data : bosch_sensor_data) (remap : bosch_sensor_axis_remap) :
    bosch_sensor_data :=
  { x := wrapS 16 (wrapS 32 (data.v remap.src_x * remap.sign_x))
    y := wrapS 16 (wrapS 32 (data.v remap.src_y * remap.sign_y))
    z := wrapS 16 (wrapS 32 (data.v remap.src_z * remap.sign_z)) }

/-- `bst_remap_sensor_data_dft_tab`. -/
def bst_remap_sensor_data_dft_tab (data : bosch_sensor_data) (place : Int) :
    bosch_sensor_data :=
  if place ≤ 0 ∨ place ≥ MAX_AXIS_REMAP_TAB_SZ then data
  else
    match bst_axis_remap_tab_dft[place.toNat]? with
    | some remap => bst_remap_sensor_data data remap
    | none => data

/-- `bmm_remap_sensor_data` (a build without `CONFIG_BMM_USE_PLATFORM_DATA` behaves as
`bst_pd = NULL`).  The `s32` components pass through the `int16_t` members of
`struct bosch_sensor_data`. -/
def bmm_remap_sensor_data (val : bmm050_mdata_s32) (cd : bmm_client_data) : bmm050_mdata_s32 :=
  match cd.bst_pd with
  | none => val
  | some place =>
    let bsd := bst_remap_sensor_data_dft_tab
      { x := wrapS 16 val.datax, y := wrapS 16 val.datay, z := wrapS 16 val.dataz } place
    { val with datax := bsd.x, datay := bsd.y, dataz := bsd.z }

/-! ## Sampling task -/

/-- `bmm_work_func`: one run of the sampling task.  The work is no longer pending while it
runs, and it re-arms itself at the end with the interval read at the start. -/
def bmm_work_func (c : Config) (hw : Hw) (w : World) : World :=
  let delay := w.cd.delay
  let w1 := if c.NORMAL_MODE ≠ w.cd.op_mode then (bmm_set_forced_mode hw w).2 else w
  let r2 := w1.call hw .read_mdataXYZ_s32
  let value := bmm_remap_sensor_data r2.1.sample r2.2.cd
  let w3 := (r2.2.call hw (.input_report_abs .ABS_X value.datax)).2
  let w4 := (w3.call hw (.input_report_abs .ABS_Y value.datay)).2
  let w5 := (w4.call hw (.input_report_abs .ABS_Z value.dataz)).2
  let w6 := (w5.call hw .input_sync).2
  { w6 with cd := { w6.cd with value := value, work := schedule_delayed_work none delay } }

/-! ## Rate and repetition endpoints -/

/-- `bmm_set_odr`. -/
def bmm_set_odr (hw : Hw) (odr : Int) (w : World) : Int × World :=
  let r := w.call hw (.set_datarate (wrapU 8 odr))
  (r.1.err, mdelay hw BMM_I2C_WRITE_DELAY_TIME r.2)

/-- `bmm_odr_store`. -/
def bmm_odr_store (hw : Hw) (buf : Except Int Nat) (count : Nat) (w : World) : Int × World :=
  match buf with
  | .error e => (e, w)
  | .ok v =>
    let tmp : Int := wrapU 64 v
    if tmp > 255 then (- EINVAL, w)
    else
      let data := wrapU 8 tmp
      let r := w.call hw .get_powermode
      let power_mode := wrapU 8 r.1.data
      let res : Int × World :=
        if power_mode ≠ 0 then
          let i := odr_map.findIdx (fun m => m == data)
          if i < odr_map.length then
            let r2 := bmm_set_odr hw i r.2
            if r2.1 = 0 then (r2.1, { r2.2 with cd := { r2.2.cd with odr := wrapU 8 i } })
            else r2
          else (- EINVAL, r.2)
        else (- EIO, r.2)
      if res.1 ≠ 0 then res else ((count : Int), res.2)

/-- `bmm_rept_xy_store`. -/
def bmm_rept_xy_store (hw : Hw) (buf : Except Int Nat) (count : Nat) (w : World) :
    Int × World :=
  match buf with
  | .error e => (e, w)
  | .ok v =>
    let tmp : Int := wrapU 64 v
    if tmp > 255 then (- EINVAL, w)
    else
      let data := wrapU 8 tmp
      let r := w.call hw .get_powermode
      let power_mode := wrapU 8 r.1.data
      let res : Int × World :=
        if power_mode ≠ 0 then
          let r2 := r.2.call hw (.set_repetitions_XY data)
          if r2.1.err = 0 then
            let w3 := mdelay hw BMM_I2C_WRITE_DELAY_TIME r2.2
            (r2.1.err, { w3 with cd := { w3.cd with rept_xy := data } })
          else (r2.1.err, r2.2)
        else (- EIO, r.2)
      if res.1 ≠ 0 then res else ((count : Int), res.2)

/-- `bmm_rept_z_store`. -/
def bmm_rept_z_store (hw : Hw) (buf : Except Int Nat) (count : Nat) (w : World) :
    Int × World :=
  match buf with
  | .error e => (e, w)
  | .ok v =>
    let tmp : Int := wrapU 64 v
    if tmp > 255 then (- EINVAL, w)
    else
      let data := wrapU 8 tmp
      let r := w.call hw .get_powermode
      let power_mode := wrapU 8 r.1.data
      let res : Int × World :=
        if power_mode ≠ 0 then
          let r2 := r.2.call hw (.set_repetitions_Z data)
          if r2.1.err = 0 then
            let w3 := mdelay hw BMM_I2C_WRITE_DELAY_TIME r2.2
            (r2.1.err, { w3 with cd := { w3.cd with rept_z := data } })
          else (r2.1.err, r2.2)
        else (- EIO, r.2)
      if res.1 ≠ 0 then res else ((count : Int), res.2)

/-! ## Detach -/

/-- The part of `bmm_remove` that runs on the client data before it is released: the work is
cancelled when the stored mode is Normal, the chip is sent to Suspend, and the driver waits
5 ms. -/
def bmm_remove_quiesce (c : Config) (hw : Hw) (w : World) : Int × World :=
  let w1 : World :=
    if c.NORMAL_MODE = w.cd.op_mode then
      { w with cd := { w.cd with work := cancel_delayed_work_sync w.cd.work } }
    else w
  let r2 := bmm_set_op_mode c hw c.SUSPEND_MODE w1
  (r2.1, mdelay hw BMM_I2C_WRITE_DELAY_TIME r2.2)

/-- `bmm_remove`: with client data, `bmm_remove_quiesce`, then the input device and the
client data are released and the singleton is cleared. -/
def bmm_remove (c : Config) (hw : Hw) (d : Driver) : Int × Driver :=
  match d.clientdata with
  | none => (0, d)
  | some cd =>
    let r := bmm_remove_quiesce c hw { cd := cd, trace := d.trace }
    (r.1, { bmm_client := none, clientdata := none, trace := r.2.trace })

/-! ## Measurement read, self-test and shutdown -/

/-- `bmm_value_show`: the client data after the read and the three numbers printed. -/
def bmm_value_show (hw : Hw) (w : World) : (Int × Int × Int) × World :=
  let r := w.call hw .read_mdataXYZ_s32
  let value := r.1.sample
  let w1 : World :=
    if value.drdy ≠ 0 then
      { r.2 with cd := { r.2.cd with value := bmm_remap_sensor_data value r.2.cd } }
    else r.2
  ((w1.cd.value.datax, w1.cd.value.datay, w1.cd.value.dataz), w1)

/-- `bmm_test_store`.  The basic self-test keeps the return value of its last call only; the
result byte lands in the `s16 result_test`. -/
def bmm_test_store (c : Config) (hw : Hw) (buf : Except Int Nat) (count : Nat) (w : World) :
    Int × World :=
  match buf with
  | .error e => (e, w)
  | .ok v =>
    let data : Int := wrapU 64 v
    let r : Int × World :=
      if data = BMM_SELF_TEST then
        let r1 := bmm_set_op_mode c hw c.SLEEP_MODE w
        let w2 := mdelay hw 3 r1.2
        let r3 := w2.call hw (.set_selftest 1)
        let w4 := mdelay hw 3 r3.2
        let r5 := w4.call hw .get_self_test_XYZ
        (r5.1.err, { r5.2 with cd := { r5.2.cd with result_test := wrapU 8 r5.1.data } })
      else if data = BMM_ADV_TEST then
        let r1 := w.call hw .perform_advanced_selftest
        (r1.1.err, { r1.2 with cd := { r1.2.cd with result_test := wrapS 16 r1.1.data } })
      else (- EINVAL, w)
    let w6 : World :=
      if r.1 = 0 then
        (bmm_restore_hw_cfg c hw
          (mdelay hw BMM_I2C_WRITE_DELAY_TIME (r.2.call hw .soft_reset).2)).2
      else r.2
    (if r.1 ≠ 0 then -1 else (count : Int), w6)

/-- `bmm_shutdown`. -/
def bmm_shutdown (c : Config) (hw : Hw) (w : World) : World :=
  (bmm_set_op_mode c hw c.SUSPEND_MODE w).2

/-! ## Sequences of operations -/

/-- One operation on an attached instance: an endpoint write or read with its input, a run of
the sampling task, or a lifecycle hook. -/
inductive Op where
  | op_mode_store (buf : Except Int Nat) (count : Nat)
  | odr_store (buf : Except Int Nat) (count : Nat)
  | rept_xy_store (buf : Except Int Nat) (count : Nat)
  | rept_z_store (buf : Except Int Nat) (count : Nat)
  | enable_store (buf : Except Int Nat) (count : Nat)
  | delay_store (buf : Except Int Nat) (count : Nat)
  | test_store (buf : Except Int Nat) (count : Nat)
  | value_show
  | work_func
  | suspend
  | resume
  | shutdown

/-- The instance after one operation. -/
def step (c : Config) (hw : Hw) (op : Op) (w : World) : World :=
  match op with
  | .op_mode_store buf count => (bmm_op_mode_store c hw buf count w).2
  | .odr_store buf count => (bmm_odr_store hw buf count w).2
  | .rept_xy_store buf count => (bmm_rept_xy_store hw buf count w).2
  | .rept_z_store buf count => (bmm_rept_z_store hw buf count w).2
  | .enable_store buf count => (bmm_enable_store buf count w).2
  | .delay_store buf count => (bmm_delay_store buf count w).2
  | .test_store buf count => (bmm_test_store c hw buf count w).2
  | .value_show => (bmm_value_show hw w).2
  | .work_func => bmm_work_func c hw w
  | .suspend => (bmm_suspend c hw w).2
  | .resume => (bmm_resume c hw w).2
  | .shutdown => bmm_shutdown c hw w

/-- The instance after a sequence of operations, first to last. -/
def run (c : Config) (hw : Hw) (ops : List Op) (w : World) : World :=
  ops.foldl (fun w op => step c hw op w) w

/-- The mode of the most recent `set_functional_state` call of a trace, if any. -/
def last_mode_request (t : List HwCall) : Option Int :=
  t.reverse.findSome? (fun call =>
    match call with
    | .set_functional_state m => some m
    | _ => none)

/-- The flag `in_suspend` says whether the most recent mode request asked for Suspend. -/
def SuspendFlagOk (c : Config) (w : World) : Prop :=
  w.cd.in_suspend = if last_mode_request w.trace = some c.SUSPEND_MODE then 1 else 0

/-- The stored rate index and repetition counts of the client data. -/
def stored_cfg (cd : bmm_client_data) : Int × Int × Int := (cd.odr, cd.rept_xy, cd.rept_z)

/-! ## Concrete runs -/

/-- A sample with every member zero. -/
def zeroSample : bmm050_mdata_s32 :=
  { datax := 0, datay := 0, dataz := 0, resistance := 0, drdy := 0 }

/-- A chip on which every call succeeds: the wake-up read-back at position 3 of the trace
returns 1, every other read returns 0x32 (the chip identity, and a non-zero power state). -/
def hwGood : Hw := fun n => if n = 3 then ⟨0, 1, zeroSample⟩ else ⟨0, 0x32, zeroSample⟩

/-- The chip `hwGood`, except that the call at position `k` fails with `-EIO`. -/
def hwFailAt (k : Nat) : Hw := fun n => if n = k then ⟨- EIO, 0, zeroSample⟩ else hwGood n

/-- The chip `hwGood`, except that the call at position `k` succeeds and returns 0 (for a
power-state read: the chip is not powered). -/
def hwZeroAt (k : Nat) : Hw := fun n => if n = k then ⟨0, 0, zeroSample⟩ else hwGood n

/-- A kernel in which every allocation and registration of `bmm_probe` succeeds, with platform
data of placement 0. -/
def envGood : ProbeEnv :=
  { i2c_check_functionality := true, platform_data := some 0, kzalloc_client_data := true,
    kzalloc_bst_pd := true, input_allocate_device := true, input_register_device := 0,
    sysfs_create_group := 0 }

/-- The driver instance right after the attach of `cfg0` on `hwGood` in `envGood`. -/
def attached0 : World :=
  { cd := { probe_client_data cfg0 envGood with in_suspend := 1 }
    trace := [.mdelay 5, .i2c_write .POWER_CNTL 1, .mdelay 5, .i2c_read .POWER_CNTL 1,
              .i2c_read .CHIP_ID 1, .init, .set_functional_state 2] }

/-- The instance `attached0` after the mode write "0" (Normal), the interval write "200" and
the enable write "1". -/
def sampling0 : World :=
  (bmm_enable_store (.ok 1) 2
    (bmm_delay_store (.ok 200) 4 (bmm_op_mode_store cfg0 hwGood (.ok 0) 2 attached0).2).2).2

/-- A chip like `hwGood` whose identity register reads 0x31, not 0x32: every bus transfer
succeeds. -/
def hwWrongId : Hw := fun n => if n = 3 then ⟨0, 1, zeroSample⟩ else ⟨0, 0x31, zeroSample⟩

/-- The driver right after the attach of client 0 that gives `attached0`. -/
def driver0 : Driver :=
  { bmm_client := some 0, clientdata := some attached0.cd, trace := attached0.trace }

/-- A chip like `hwGood` on which the calls at positions 7 and 9 fail with `-EIO` and the call
at position 11 succeeds and returns 0.  After the attach giving `attached0` these are, in a
basic self-test, the Sleep mode write, the self-test trigger and the result read. -/
def hwTriggerFails : Hw :=
  fun n =>
    if n = 7 ∨ n = 9 then ⟨- EIO, 0, zeroSample⟩
    else if n = 11 then ⟨0, 0, zeroSample⟩
    else hwGood n

/-- A chip like `hwGood` whose sample reads return `sample`. -/
def hwSample (sample : bmm050_mdata_s32) : Hw :=
  fun n => if n = 3 then ⟨0, 1, zeroSample⟩ else ⟨0, 0x32, sample⟩

end Bmm050

/-! NFC controller driver (`drivers/misc/pn544.c`): the power ioctl.

The GPIO writes, sleeps and irq-wake calls of `pn544_dev_ioctl` are appended to a trace.  The
command code `PN544_SET_PWR` comes from `linux/pn544.h`, which is not among the sources, and
is a parameter. -/

namespace Pn544

/-- One call that leaves `pn544_dev_ioctl`. -/
inductive Call where
  | gpio_set_value (gpio : Int) (value : Int)
  | msleep (msecs : Int)
  | irq_set_irq_wake (irq : Int) (enable : Int)
  deriving DecidableEq, Repr

/-- The members of `struct pn544_dev` that `pn544_dev_ioctl` uses, with `client->irq`. -/
structure pn544_dev where
  ven_gpio : Int
  firm_gpio : Int
  irq : Int
  IsPrbsTestMode : Bool
  balance_wake_irq : Int
  deriving DecidableEq, Repr

/-- The device data and the calls issued so far, oldest first. -/
structure State where
  dev : pn544_dev
  trace : List Call
  deriving DecidableEq, Repr

/-- `pn544_dev_ioctl`, with `cmd` an `unsigned int` and `arg` an `unsigned long`. -/
def pn544_dev_ioctl (PN544_SET_PWR : Nat) (cmd arg : Nat) (s : State) : Int × State :=
  if cmd = PN544_SET_PWR then
    if arg = 2 then
      let t := s.trace ++
        [.gpio_set_value s.dev.ven_gpio 1, .gpio_set_value s.dev.firm_gpio 1, .msleep 20,
         .gpio_set_value s.dev.ven_gpio 0, .msleep 50, .gpio_set_value s.dev.ven_gpio 1,
         .msleep 100]
      if s.dev.balance_wake_irq = 0 then
        (0, { dev := { s.dev with balance_wake_irq := 1 },
              trace := t ++ [.irq_set_irq_wake s.dev.irq 1] })
      else (0, { s with trace := t })
    else if arg = 1 then
      let t := s.trace ++
        [.gpio_set_value s.dev.firm_gpio 0, .gpio_set_value s.dev.ven_gpio 1, .msleep 100]
      if s.dev.balance_wake_irq = 0 then
        (0, { dev := { s.dev with balance_wake_irq := 1 },
              trace := t ++ [.irq_set_irq_wake s.dev.irq 1] })
      else (0, { s with trace := t })
    else if arg = 0 then
      let s1 : State :=
        if s.dev.balance_wake_irq = 1 then
          { dev := { s.dev with balance_wake_irq := 0 },
            trace := s.trace ++ [.irq_set_irq_wake s.dev.irq 0] }
        else s
      (0, { dev := { s1.dev with IsPrbsTestMode := false },
            trace := s1.trace ++
              [.gpio_set_value s1.dev.firm_gpio 0, .gpio_set_value s1.dev.ven_gpio 0,
               .msleep 100] })
    else if arg = 3 then
      (0, { s with dev := { s.dev with IsPrbsTestMode := true } })
    else (- Bmm050.EINVAL, s)
  else (- Bmm050.EINVAL, s)

/-- The device data as `pn544_probe` leaves it on success, as far as `pn544_dev_ioctl` reads
it: the test flag clear and `balance_wake_irq` set to 0. -/
def probed (ven_gpio firm_gpio irq : Int) : State :=
  { dev := { ven_gpio := ven_gpio, firm_gpio := firm_gpio, irq := irq,
             IsPrbsTestMode := false, balance_wake_irq := 0 }
    trace := [] }

/-- The state after a sequence of ioctl calls `(cmd, arg)`, first to last. -/
def ioctl_run (PN544_SET_PWR : Nat) (calls : List (Nat × Nat)) (s : State) : State :=
  calls.foldl (fun s call => (pn544_dev_ioctl PN544_SET_PWR call.1 call.2 s).2) s

/-- Whether the most recent `PN544_SET_PWR` call with argument 0, 1 or 2 was a power-on
(1 or 2); `init` when there is none. -/
def power_on_last (PN544_SET_PWR : Nat) (calls : List (Nat × Nat)) (init : Bool) : Bool :=
  calls.foldl (fun b call =>
    if call.1 = PN544_SET_PWR then
      if call.2 = 1 ∨ call.2 = 2 then true else if call.2 = 0 then false else b
    else b) init

/-- The enable arguments of the `irq_set_irq_wake` calls of a trace, in order. -/
def wake_calls (t : List Call) : List Int :=
  t.filterMap (fun call =>
    match call with
    | .irq_set_irq_wake _ enable => some enable
    | _ => none)

/-- The sequence enable, disable, enable, ... of length `n`. -/
def alternating (n : Nat) : List Int :=
  (List.range n).map (fun i => if i % 2 = 0 then 1 else 0)

/-- The counter `balance_wake_irq` is 1 or 0 according to `b`, the irq-wake calls issued so
far alternate beginning with an enable, and their number is odd exactly when `b` holds. -/
def BalanceOk (s : State) (b : Bool) : Prop :=
  s.dev.balance_wake_irq = (if b then 1 else 0) ∧
  wake_calls s.trace = alternating (wake_calls s.trace).length ∧
  ((wake_calls s.trace).length % 2 = 1 ↔ b = true)

end Pn544

namespace Bmm050

/-! ## Auxiliary lemmas -/

theorem wrapU8_small (x : Int) (h0 : 0 ≤ x) (h1 : x ≤ 255) : wrapU 8 x = x := by
  unfold wrapU; norm_num; omega

theorem wrapS4_small (x : Int) (h0 : -8 ≤ x) (h1 : x ≤ 7) : wrapS 4 x = x := by
  unfold wrapS; norm_num; split_ifs <;> omega

theorem wrapS32_small (x : Int) (h0 : -2147483648 ≤ x) (h1 : x ≤ 2147483647) :
    wrapS 32 x = x := by
  unfold wrapS; norm_num; split_ifs <;> omega

theorem wrapS64_small (x : Int) (h0 : -9223372036854775808 ≤ x)
    (h1 : x ≤ 9223372036854775807) : wrapS 64 x = x := by
  unfold wrapS; norm_num; split_ifs <;> omega

theorem code_toNat (m : Int) (h0 : 0 ≤ m) : ((m.toNat : Nat) : Int) = m :=
  Int.toNat_of_nonneg h0

/-- The index lookup succeeds exactly when the low byte of its argument is a listed code. -/
theorem bmm_get_op_mode_idx_ne (c : Config) (x : Int) :
    bmm_get_op_mode_idx c x ≠ -1 ↔ wrapU 8 x ∈ op_mode_maps c := by
  unfold bmm_get_op_mode_idx
  simp only [List.findIdx_lt_length]
  constructor
  · intro h
    split_ifs at h with h1
    · obtain ⟨y, hy, hp⟩ := h1
      simp at hp
      rw [← hp]; exact hy
    · exact absurd rfl h
  · intro h
    rw [if_pos ⟨_, h, by simp⟩]
    omega

/-- Every listed code of a well-formed configuration lies in `0..7`. -/
theorem code_range (c : Config) (hc : c.WF) (m : Int) (hm : m ∈ op_mode_maps c) :
    0 ≤ m ∧ m ≤ 7 := by
  obtain ⟨h1, h2, h3, h4, -⟩ := hc
  simp only [op_mode_maps, List.mem_cons, List.mem_singleton, List.not_mem_nil, or_false] at hm
  rcases hm with h | h | h | h <;> subst h <;> assumption

/-- On a value of the 4-bit field the index lookup succeeds exactly on the listed codes. -/
theorem bmm_get_op_mode_idx_field (c : Config) (hc : c.WF) (x : Int) (h0 : -8 ≤ x)
    (h1 : x ≤ 7) : bmm_get_op_mode_idx c x ≠ -1 ↔ x ∈ op_mode_maps c := by
  rw [bmm_get_op_mode_idx_ne]
  by_cases hx : 0 ≤ x
  · rw [wrapU8_small x hx (by omega)]
  · constructor
    · intro h
      have := code_range c hc _ h
      unfold wrapU at this
      norm_num at this
      omega
    · intro h
      have := code_range c hc _ h
      omega

/-- A request for a listed code other than Forced that differs from the stored mode: one full
mode write, and the stored mode follows on success. -/
theorem op_mode_store_code (c : Config) (hw : Hw) (count : Nat) (w : World) (m : Int)
    (h0 : 0 ≤ m) (h7 : m ≤ 7) (hmem : m ∈ op_mode_maps c) (hne : w.cd.op_mode ≠ m)
    (hnf : m ≠ c.FORCED_MODE) :
    bmm_op_mode_store c hw (.ok m.toNat) count w =
      (if (hw w.trace.length).err ≠ 0 then (hw w.trace.length).err else (count : Int),
       { cd := { w.cd with
                 in_suspend := if c.SUSPEND_MODE = m then 1 else 0
                 op_mode := if (hw w.trace.length).err = 0 then m else w.cd.op_mode }
         trace := w.trace ++ [.set_functional_state m] }) := by
  have e64 : wrapS 64 ((m.toNat : Nat) : Int) = m := by
    rw [code_toNat m h0]; exact wrapS64_small m (by omega) (by omega)
  have hidx : bmm_get_op_mode_idx c m ≠ -1 :=
    (bmm_get_op_mode_idx_ne c m).mpr (by rw [wrapU8_small m h0 (by omega)]; exact hmem)
  have e32 : wrapS 32 m = m := wrapS32_small m (by omega) (by omega)
  have e4 : wrapS 4 m = m := wrapS4_small m (by omega) (by omega)
  unfold bmm_op_mode_store
  simp only [e64, hidx, ne_eq, not_false_eq_true, if_true, Ne.symm hne, Ne.symm hnf, if_false,
    e32, e4, bmm_set_op_mode, World.call, hwcall]
  by_cases he : (hw w.trace.length).err = 0
  · simp [he]
  · simp [he]

/-- A request for the Forced code while the stored mode is not the Forced code: one
forced-acquisition write, and the stored mode becomes the marker on success. -/
theorem op_mode_store_forced (c : Config) (hc : c.WF) (hw : Hw) (count : Nat) (w : World)
    (hne : w.cd.op_mode ≠ c.FORCED_MODE) :
    bmm_op_mode_store c hw (.ok c.FORCED_MODE.toNat) count w =
      (if (hw w.trace.length).err ≠ 0 then (hw w.trace.length).err else (count : Int),
       { cd := { w.cd with
                 op_mode := if (hw w.trace.length).err = 0 then BMM_OP_MODE_UNKNOWN
                            else w.cd.op_mode }
         trace := w.trace ++ [.i2c_write .CONTROL 0x02] }) := by
  have hr := code_range c hc c.FORCED_MODE (by simp [op_mode_maps])
  have e64 : wrapS 64 ((c.FORCED_MODE.toNat : Nat) : Int) = c.FORCED_MODE := by
    rw [code_toNat _ hr.1]; exact wrapS64_small _ (by omega) (by omega)
  have hidx : bmm_get_op_mode_idx c c.FORCED_MODE ≠ -1 :=
    (bmm_get_op_mode_idx_ne c _).mpr (by
      rw [wrapU8_small _ hr.1 (by omega)]; simp [op_mode_maps])
  have e4 : wrapS 4 BMM_OP_MODE_UNKNOWN = BMM_OP_MODE_UNKNOWN := by decide
  unfold bmm_op_mode_store
  simp only [e64, hidx, ne_eq, not_false_eq_true, if_true, Ne.symm hne, e4,
    bmm_set_forced_mode, World.call, hwcall]
  by_cases he : (hw w.trace.length).err = 0
  · simp [he]
  · simp [he]

/-- A request for the listed code that is already stored: nothing is issued, nothing changes. -/
theorem op_mode_store_same (c : Config) (hw : Hw) (count : Nat) (w : World) (m : Int)
    (h0 : 0 ≤ m) (h7 : m ≤ 7) (hmem : m ∈ op_mode_maps c) (heq : w.cd.op_mode = m) :
    bmm_op_mode_store c hw (.ok m.toNat) count w = ((count : Int), w) := by
  have e64 : wrapS 64 ((m.toNat : Nat) : Int) = m := by
    rw [code_toNat m h0]; exact wrapS64_small m (by omega) (by omega)
  have hidx : bmm_get_op_mode_idx c m ≠ -1 :=
    (bmm_get_op_mode_idx_ne c m).mpr (by rw [wrapU8_small m h0 (by omega)]; exact hmem)
  unfold bmm_op_mode_store
  simp only [e64, hidx, ne_eq, not_false_eq_true, if_true, heq, not_true_eq_false, if_false]

/-- What the mode endpoint does reject: a parsed value whose low byte is not a listed code
fails with `-EINVAL`, with no hardware call and no change of state. -/
theorem op_mode_store_rejected (c : Config) (hw : Hw) (count v : Nat) (w : World)
    (h : wrapU 8 (wrapS 64 v) ∉ op_mode_maps c) :
    bmm_op_mode_store c hw (.ok v) count w = (- EINVAL, w) := by
  have hidx : bmm_get_op_mode_idx c (wrapS 64 v) = -1 := by
    by_contra hne
    exact h ((bmm_get_op_mode_idx_ne c _).mp hne)
  unfold bmm_op_mode_store
  simp [hidx, EINVAL]

/-- The calls of `bmm_restore_hw_cfg`, read off its control flow: they do not depend on what
the hardware answers. -/
theorem restore_trace (c : Config) (hw : Hw) (w : World) :
    (bmm_restore_hw_cfg c hw w).2.trace =
      w.trace ++ [.set_functional_state c.SLEEP_MODE]
        ++ (if bmm_get_op_mode_idx c w.cd.op_mode ≠ -1 then
              [.set_functional_state w.cd.op_mode] else [])
        ++ (if c.SUSPEND_MODE = w.cd.op_mode then []
            else
              [.set_datarate w.cd.odr, .mdelay 5,
               .i2c_write .NO_REPETITIONS_XY w.cd.rept_xy, .mdelay 5,
               .i2c_read .NO_REPETITIONS_XY 1,
               .i2c_write .NO_REPETITIONS_Z w.cd.rept_z, .mdelay 5,
               .i2c_read .NO_REPETITIONS_Z 1]
              ++ (if w.cd.op_mode = BMM_OP_MODE_UNKNOWN then
                    [.i2c_write .CONTROL 0x02,
                     .mdelay (bmm_get_forced_drdy_time w.cd.rept_xy w.cd.rept_z)]
                  else [])
              ++ (if c.DEBUG = true then [.i2c_read .CHIP_ID 64] else [])) := by
  unfold bmm_restore_hw_cfg
  simp only [bmm_set_op_mode, World.call, hwcall, mdelay, bmm_dump_reg, bmm_set_forced_mode,
    BMM_I2C_WRITE_DELAY_TIME]
  split_ifs <;> simp

/-! ## Mode endpoint -/

/-- C1, as stated, fails: after an attach and an accepted write of 257 (low byte 1) the stored
mode is the literal Forced code 1, and a Forced request in that state issues no hardware write
and leaves the literal Forced code stored. -/
theorem forced_request_skipped_on_stored_forced_code :
    bmm_probe cfg0 hwGood envGood 0 Driver.init =
      (0, { bmm_client := some 0, clientdata := some attached0.cd, trace := attached0.trace }) ∧
    (bmm_op_mode_store cfg0 hwGood (.ok 257) 4 attached0).2.cd.op_mode = cfg0.FORCED_MODE ∧
    (bmm_op_mode_store cfg0 hwGood (.ok 1) 2
        (bmm_op_mode_store cfg0 hwGood (.ok 257) 4 attached0).2).2.trace =
      (bmm_op_mode_store cfg0 hwGood (.ok 257) 4 attached0).2.trace ∧
    (bmm_op_mode_store cfg0 hwGood (.ok 1) 2
        (bmm_op_mode_store cfg0 hwGood (.ok 257) 4 attached0).2).2.cd.op_mode =
      cfg0.FORCED_MODE := by
  decide

/-- C1 (amended): in every driver state whose stored mode is not the literal Forced code, a
Forced request issues exactly one hardware write, the forced-acquisition control write; when
it succeeds the request reports success and the stored mode becomes the marker
`BMM_OP_MODE_UNKNOWN`, and when it fails the error is returned and the state is unchanged.  An
immediately following second Forced request again issues exactly that one write, and after a
successful first request the stored mode is still the marker. -/
theorem forced_request_issues_one_write (c : Config) (hc : c.WF) (hw : Hw) (n1 n2 : Nat)
    (w : World) (hne : w.cd.op_mode ≠ c.FORCED_MODE) :
    (bmm_op_mode_store c hw (.ok c.FORCED_MODE.toNat) n1 w).2.trace =
      w.trace ++ [.i2c_write .CONTROL 0x02] ∧
    ((hw w.trace.length).err = 0 →
      (bmm_op_mode_store c hw (.ok c.FORCED_MODE.toNat) n1 w).1 = n1 ∧
      (bmm_op_mode_store c hw (.ok c.FORCED_MODE.toNat) n1 w).2.cd.op_mode =
        BMM_OP_MODE_UNKNOWN ∧
      (bmm_op_mode_store c hw (.ok c.FORCED_MODE.toNat) n2
        (bmm_op_mode_store c hw (.ok c.FORCED_MODE.toNat) n1 w).2).2.cd.op_mode =
        BMM_OP_MODE_UNKNOWN) ∧
    ((hw w.trace.length).err ≠ 0 →
      (bmm_op_mode_store c hw (.ok c.FORCED_MODE.toNat) n1 w).1 = (hw w.trace.length).err ∧
      (bmm_op_mode_store c hw (.ok c.FORCED_MODE.toNat) n1 w).2.cd = w.cd) ∧
    (bmm_op_mode_store c hw (.ok c.FORCED_MODE.toNat) n2
        (bmm_op_mode_store c hw (.ok c.FORCED_MODE.toNat) n1 w).2).2.trace =
      w.trace ++ [.i2c_write .CONTROL 0x02] ++ [.i2c_write .CONTROL 0x02] := by
  have hr := code_range c hc c.FORCED_MODE (by simp [op_mode_maps])
  have hu : BMM_OP_MODE_UNKNOWN ≠ c.FORCED_MODE := by
    unfold BMM_OP_MODE_UNKNOWN; omega
  rw [op_mode_store_forced c hc hw n1 w hne]
  have hne2 : (if (hw w.trace.length).err = 0 then BMM_OP_MODE_UNKNOWN else w.cd.op_mode) ≠
      c.FORCED_MODE := by
    split_ifs
    · exact hu
    · exact hne
  rw [op_mode_store_forced c hc hw n2 _ hne2]
  refine ⟨rfl, ?_, ?_, rfl⟩
  · intro he
    simp [he]
  · intro he
    simp [he]

/-- Witness of `forced_request_issues_one_write`: the attached instance `attached0`. -/
theorem forced_request_issues_one_write_witness :
    cfg0.WF ∧ attached0.cd.op_mode ≠ cfg0.FORCED_MODE ∧
    (bmm_op_mode_store cfg0 hwGood (.ok cfg0.FORCED_MODE.toNat) 2 attached0).2.trace =
      attached0.trace ++ [.i2c_write .CONTROL 0x02] :=
  ⟨by decide, by decide,
    (forced_request_issues_one_write cfg0 (by decide) hwGood 2 2 attached0 (by decide)).1⟩

/-- C2: for a target mode `m` among Normal, Suspend and Sleep and a driver state whose stored
mode differs from `m`, the mode endpoint issues exactly one full mode-write call, with `m`,
and when that call succeeds the stored mode is `m` and the write reports success (it returns
`count`). -/
theorem mode_request_issues_full_mode_write (c : Config) (hc : c.WF) (hw : Hw) (count : Nat)
    (w : World) (m : Int)
    (hm : m = c.NORMAL_MODE ∨ m = c.SUSPEND_MODE ∨ m = c.SLEEP_MODE)
    (hne : w.cd.op_mode ≠ m) :
    (bmm_op_mode_store c hw (.ok m.toNat) count w).2.trace =
      w.trace ++ [.set_functional_state m] ∧
    ((hw w.trace.length).err = 0 →
      (bmm_op_mode_store c hw (.ok m.toNat) count w).2.cd.op_mode = m ∧
      (bmm_op_mode_store c hw (.ok m.toNat) count w).1 = count) := by
  have hmem : m ∈ op_mode_maps c := by
    rcases hm with h | h | h <;> subst h <;> simp [op_mode_maps]
  have hr := code_range c hc m hmem
  have hnf : m ≠ c.FORCED_MODE := by
    obtain ⟨-, -, -, -, h1, -, -, h2, h3, -⟩ := hc
    rcases hm with h | h | h <;> subst h
    · exact h1
    · exact Ne.symm h2
    · exact Ne.symm h3
  rw [op_mode_store_code c hw count w m hr.1 hr.2 hmem hne hnf]
  refine ⟨rfl, ?_⟩
  intro he
  simp [he]

/-- Witness of `mode_request_issues_full_mode_write`: a Normal request on `attached0`. -/
theorem mode_request_issues_full_mode_write_witness :
    cfg0.WF ∧ attached0.cd.op_mode ≠ cfg0.NORMAL_MODE ∧
    (bmm_op_mode_store cfg0 hwGood (.ok cfg0.NORMAL_MODE.toNat) 2 attached0).2.trace =
      attached0.trace ++ [.set_functional_state cfg0.NORMAL_MODE] :=
  ⟨by decide, by decide,
    (mode_request_issues_full_mode_write cfg0 (by decide) hwGood 2 attached0 cfg0.NORMAL_MODE
      (Or.inl rfl) (by decide)).1⟩

/-- C3 fails on the code: the written value 256 is none of the four mode codes, yet on the
attached instance the mode endpoint does not return `-EINVAL`: it issues a mode-write call
with 256, returns `count`, clears `in_suspend` and stores mode 0. -/
theorem unlisted_value_256_accepted :
    bmm_probe cfg0 hwGood envGood 0 Driver.init =
      (0, { bmm_client := some 0, clientdata := some attached0.cd, trace := attached0.trace }) ∧
    (256 : Int) ∉ op_mode_maps cfg0 ∧
    bmm_op_mode_store cfg0 hwGood (.ok 256) 4 attached0 =
      (4, { cd := { attached0.cd with in_suspend := 0, op_mode := 0 }
            trace := attached0.trace ++ [.set_functional_state 256] }) := by
  decide

/-- C4 fails on the code: after a successful attach, the write of 257 to the mode endpoint
with the hardware call succeeding leaves the literal Forced code in the stored mode, which is
then none of Normal, Suspend, Sleep and the marker. -/
theorem stored_mode_forced_code_reachable :
    bmm_probe cfg0 hwGood envGood 0 Driver.init =
      (0, { bmm_client := some 0, clientdata := some attached0.cd, trace := attached0.trace }) ∧
    (bmm_op_mode_store cfg0 hwGood (.ok 257) 4 attached0).1 = 4 ∧
    (bmm_op_mode_store cfg0 hwGood (.ok 257) 4 attached0).2.cd.op_mode = cfg0.FORCED_MODE ∧
    cfg0.FORCED_MODE ∉ [cfg0.NORMAL_MODE, cfg0.SUSPEND_MODE, cfg0.SLEEP_MODE,
      BMM_OP_MODE_UNKNOWN] := by
  decide

/-- C5, as stated, fails twice over.  A Forced request repeated on the attached instance
issues the forced-acquisition write on the second request too; and a Normal request whose
mode write failed (the call at position 7 fails) is issued again by the second request. -/
theorem repeated_request_writes_again :
    bmm_probe cfg0 hwGood envGood 0 Driver.init =
      (0, { bmm_client := some 0, clientdata := some attached0.cd, trace := attached0.trace }) ∧
    (bmm_op_mode_store cfg0 hwGood (.ok 1) 2
        (bmm_op_mode_store cfg0 hwGood (.ok 1) 2 attached0).2).2.trace =
      attached0.trace ++ [.i2c_write .CONTROL 0x02, .i2c_write .CONTROL 0x02] ∧
    bmm_probe cfg0 (hwFailAt 7) envGood 0 Driver.init =
      (0, { bmm_client := some 0, clientdata := some attached0.cd, trace := attached0.trace }) ∧
    (bmm_op_mode_store cfg0 (hwFailAt 7) (.ok 0) 2
        (bmm_op_mode_store cfg0 (hwFailAt 7) (.ok 0) 2 attached0).2).2.trace =
      attached0.trace ++ [.set_functional_state 0, .set_functional_state 0] := by
  decide

/-- C5 (amended): for a mode code `m` among Normal, Suspend and Sleep and every driver state,
the first of two consecutive requests for `m` issues the mode write exactly when the stored
mode differs from `m`, and when that write succeeded, or none was needed, the second request
issues no hardware call and changes nothing. -/
theorem repeated_request_idempotent (c : Config) (hc : c.WF) (hw : Hw) (n1 n2 : Nat)
    (w : World) (m : Int)
    (hm : m = c.NORMAL_MODE ∨ m = c.SUSPEND_MODE ∨ m = c.SLEEP_MODE)
    (hok : w.cd.op_mode = m ∨ (hw w.trace.length).err = 0) :
    (bmm_op_mode_store c hw (.ok m.toNat) n1 w).2.trace =
      (if w.cd.op_mode = m then w.trace else w.trace ++ [.set_functional_state m]) ∧
    bmm_op_mode_store c hw (.ok m.toNat) n2 (bmm_op_mode_store c hw (.ok m.toNat) n1 w).2 =
      ((n2 : Int), (bmm_op_mode_store c hw (.ok m.toNat) n1 w).2) := by
  have hmem : m ∈ op_mode_maps c := by
    rcases hm with h | h | h <;> subst h <;> simp [op_mode_maps]
  have hr := code_range c hc m hmem
  have hnf : m ≠ c.FORCED_MODE := by
    obtain ⟨-, -, -, -, h1, -, -, h2, h3, -⟩ := hc
    rcases hm with h | h | h <;> subst h
    · exact h1
    · exact Ne.symm h2
    · exact Ne.symm h3
  by_cases heq : w.cd.op_mode = m
  · rw [op_mode_store_same c hw n1 w m hr.1 hr.2 hmem heq]
    exact ⟨by simp [heq], op_mode_store_same c hw n2 w m hr.1 hr.2 hmem heq⟩
  · have he : (hw w.trace.length).err = 0 := hok.resolve_left heq
    rw [op_mode_store_code c hw n1 w m hr.1 hr.2 hmem heq hnf]
    refine ⟨by simp [heq], ?_⟩
    exact op_mode_store_same c hw n2 _ m hr.1 hr.2 hmem (by simp [he])

/-- Witness of `repeated_request_idempotent`: two Normal requests on `attached0`. -/
theorem repeated_request_idempotent_witness :
    cfg0.WF ∧ (hwGood attached0.trace.length).err = 0 ∧
    (bmm_op_mode_store cfg0 hwGood (.ok cfg0.NORMAL_MODE.toNat) 2
        (bmm_op_mode_store cfg0 hwGood (.ok cfg0.NORMAL_MODE.toNat) 2 attached0).2).2.trace =
      attached0.trace ++ [.set_functional_state 0] :=
  ⟨by decide, by decide, by
    have h := repeated_request_idempotent cfg0 (by decide) hwGood 2 2 attached0
      cfg0.NORMAL_MODE (Or.inl rfl) (Or.inr (by decide))
    rw [h.2, h.1]
    decide⟩

/-- C6, as stated, fails: on the attached instance put in Normal mode, a Suspend request
whose mode write fails (the call at position 8) returns the error and leaves the stored mode
Normal, not Suspend, although `in_suspend` is set. -/
theorem failed_suspend_request_keeps_mode :
    bmm_probe cfg0 (hwFailAt 8) envGood 0 Driver.init =
      (0, { bmm_client := some 0, clientdata := some attached0.cd, trace := attached0.trace }) ∧
    (bmm_op_mode_store cfg0 (hwFailAt 8) (.ok 0) 2 attached0).2.cd.op_mode =
      cfg0.NORMAL_MODE ∧
    bmm_op_mode_store cfg0 (hwFailAt 8) (.ok 2) 2
        (bmm_op_mode_store cfg0 (hwFailAt 8) (.ok 0) 2 attached0).2 =
      (- EIO,
       { cd := { attached0.cd with in_suspend := 1, op_mode := cfg0.NORMAL_MODE }
         trace := attached0.trace ++ [.set_functional_state 0, .set_functional_state 2] }) := by
  decide

/-- C6 (amended): a Suspend request through the mode endpoint in a state whose stored mode is
already Suspend succeeds without any hardware call; otherwise it issues the mode write and
sets `in_suspend` whatever the outcome of the write, while the stored mode becomes Suspend
only when the write succeeds: on a failed write the stored mode is unchanged and the error is
returned. -/
theorem suspend_request_outcome (c : Config) (hc : c.WF) (hw : Hw) (count : Nat) (w : World) :
    (w.cd.op_mode = c.SUSPEND_MODE →
      bmm_op_mode_store c hw (.ok c.SUSPEND_MODE.toNat) count w = ((count : Int), w)) ∧
    (w.cd.op_mode ≠ c.SUSPEND_MODE →
      (bmm_op_mode_store c hw (.ok c.SUSPEND_MODE.toNat) count w).2.trace =
        w.trace ++ [.set_functional_state c.SUSPEND_MODE] ∧
      (bmm_op_mode_store c hw (.ok c.SUSPEND_MODE.toNat) count w).2.cd.in_suspend = 1 ∧
      ((hw w.trace.length).err = 0 →
        (bmm_op_mode_store c hw (.ok c.SUSPEND_MODE.toNat) count w).1 = count ∧
        (bmm_op_mode_store c hw (.ok c.SUSPEND_MODE.toNat) count w).2.cd.op_mode =
          c.SUSPEND_MODE) ∧
      ((hw w.trace.length).err ≠ 0 →
        (bmm_op_mode_store c hw (.ok c.SUSPEND_MODE.toNat) count w).1 =
          (hw w.trace.length).err ∧
        (bmm_op_mode_store c hw (.ok c.SUSPEND_MODE.toNat) count w).2.cd.op_mode =
          w.cd.op_mode)) := by
  have hmem : c.SUSPEND_MODE ∈ op_mode_maps c := by simp [op_mode_maps]
  have hr := code_range c hc _ hmem
  have hnf : c.SUSPEND_MODE ≠ c.FORCED_MODE := by
    obtain ⟨-, -, -, -, -, -, -, h2, -, -⟩ := hc
    exact Ne.symm h2
  refine ⟨fun heq => op_mode_store_same c hw count w _ hr.1 hr.2 hmem heq, fun hne => ?_⟩
  rw [op_mode_store_code c hw count w _ hr.1 hr.2 hmem hne hnf]
  refine ⟨rfl, by simp, ?_, ?_⟩
  · intro he
    simp [he]
  · intro he
    simp [he]

/-- Witness of `suspend_request_outcome`: a Suspend request on `attached0`, whose stored mode
is already Suspend. -/
theorem suspend_request_outcome_witness :
    cfg0.WF ∧ attached0.cd.op_mode = cfg0.SUSPEND_MODE ∧
    bmm_op_mode_store cfg0 hwGood (.ok cfg0.SUSPEND_MODE.toNat) 2 attached0 =
      (((2 : Nat) : Int), attached0) :=
  ⟨by decide, by decide, (suspend_request_outcome cfg0 (by decide) hwGood 2 attached0).1
    (by decide)⟩

/-! ## Restore, suspend and resume -/

/-- C7: whatever the hardware answers, `bmm_restore_hw_cfg` issues, in this order: the mode
write Sleep; a mode write of the stored mode exactly when the stored mode is a listed code;
then, exactly when the stored mode is not Suspend, the rate write, the XY-repetitions write
and the Z-repetitions write (each followed by the 5 ms settle delay, the repetition writes
also by their read-back); then, exactly when the stored mode is the marker, one
forced-acquisition write followed by a wait of `bmm_get_forced_drdy_time rept_xy rept_z`
milliseconds; and last, in a `DEBUG` build and unless the stored mode is Suspend, the register
dump read.  Nothing else is issued, and nothing after the mode writes when the stored mode is
Suspend. -/
theorem restore_sequence (c : Config) (hc : c.WF) (hw : Hw) (w : World)
    (h0 : -8 ≤ w.cd.op_mode) (h7 : w.cd.op_mode ≤ 7) :
    (bmm_restore_hw_cfg c hw w).2.trace =
      w.trace ++ [.set_functional_state c.SLEEP_MODE]
        ++ (if w.cd.op_mode ∈ op_mode_maps c then [.set_functional_state w.cd.op_mode] else [])
        ++ (if w.cd.op_mode ≠ c.SUSPEND_MODE then
              [.set_datarate w.cd.odr, .mdelay 5,
               .i2c_write .NO_REPETITIONS_XY w.cd.rept_xy, .mdelay 5,
               .i2c_read .NO_REPETITIONS_XY 1,
               .i2c_write .NO_REPETITIONS_Z w.cd.rept_z, .mdelay 5,
               .i2c_read .NO_REPETITIONS_Z 1]
            else [])
        ++ (if w.cd.op_mode = BMM_OP_MODE_UNKNOWN then
              [.i2c_write .CONTROL 0x02,
               .mdelay (bmm_get_forced_drdy_time w.cd.rept_xy w.cd.rept_z)]
            else [])
        ++ (if w.cd.op_mode ≠ c.SUSPEND_MODE ∧ c.DEBUG = true then [.i2c_read .CHIP_ID 64]
            else []) := by
  have hidx := bmm_get_op_mode_idx_field c hc w.cd.op_mode h0 h7
  have hsu := (code_range c hc c.SUSPEND_MODE (by simp [op_mode_maps])).1
  have hus : BMM_OP_MODE_UNKNOWN ≠ c.SUSPEND_MODE := by
    unfold BMM_OP_MODE_UNKNOWN; omega
  rw [restore_trace c hw w]
  by_cases hmem : w.cd.op_mode ∈ op_mode_maps c
  · have hi : bmm_get_op_mode_idx c w.cd.op_mode ≠ -1 := hidx.mpr hmem
    by_cases hs : c.SUSPEND_MODE = w.cd.op_mode
    · have hi2 : bmm_get_op_mode_idx c c.SUSPEND_MODE ≠ -1 := hs ▸ hi
      have hm2 : c.SUSPEND_MODE ∈ op_mode_maps c := hs ▸ hmem
      simp [hi2, hm2, hs.symm, Ne.symm hus]
    · simp [hi, hmem, hs, Ne.symm hs]
  · have hi : bmm_get_op_mode_idx c w.cd.op_mode = -1 := by
      by_contra h
      exact hmem (hidx.mp h)
    have hs : ¬ c.SUSPEND_MODE = w.cd.op_mode := fun h => hmem (by simp [← h, op_mode_maps])
    simp [hi, hmem, hs, Ne.symm hs]

/-- Witness of `restore_sequence`: the attached instance after a Forced request, whose stored
mode is the marker. -/
theorem restore_sequence_witness :
    cfg0.WF ∧ -8 ≤ (bmm_op_mode_store cfg0 hwGood (.ok 1) 2 attached0).2.cd.op_mode ∧
    (bmm_op_mode_store cfg0 hwGood (.ok 1) 2 attached0).2.cd.op_mode ≤ 7 ∧
    (bmm_restore_hw_cfg cfg0 hwGood (bmm_op_mode_store cfg0 hwGood (.ok 1) 2 attached0).2).2.trace
      = attached0.trace ++ [.i2c_write .CONTROL 0x02] ++
        [.set_functional_state 3, .set_datarate 0, .mdelay 5,
         .i2c_write .NO_REPETITIONS_XY 4, .mdelay 5, .i2c_read .NO_REPETITIONS_XY 1,
         .i2c_write .NO_REPETITIONS_Z 14, .mdelay 5, .i2c_read .NO_REPETITIONS_Z 1,
         .i2c_write .CONTROL 0x02, .mdelay 9] :=
  ⟨by decide, by decide, by decide,
    (restore_sequence cfg0 (by decide) hwGood
      (bmm_op_mode_store cfg0 hwGood (.ok 1) 2 attached0).2 (by decide) (by decide)).trans
      (by decide)⟩

/-- A successful `bmm_probe` installs the singleton and the initial client data. -/
theorem bmm_probe_ok (c : Config) (hw : Hw) (env : ProbeEnv) (client : Nat) (d d1 : Driver)
    (h : bmm_probe c hw env client d = (0, d1)) :
    d1.bmm_client = some client ∧
    d1.clientdata = some { probe_client_data c env with in_suspend := 1 } := by
  unfold bmm_probe at h
  simp only [probe_fail, probe_fail_early, EIO, EBUSY, ENOMEM] at h
  split_ifs at h with h1 h2 h3 h4 h5 h6 h7 h8
  all_goals simp only [Prod.mk.injEq] at h
  all_goals first
    | (exfalso; omega)
    | skip
  · obtain ⟨-, rfl⟩ := h
    simp [bmm_set_op_mode, World.call]

/-- `bmm_restore_hw_cfg` changes no field of the client data other than `in_suspend`. -/
theorem restore_cd (c : Config) (hw : Hw) (w : World) :
    (bmm_restore_hw_cfg c hw w).2.cd =
      { w.cd with in_suspend := (bmm_restore_hw_cfg c hw w).2.cd.in_suspend } := by
  unfold bmm_restore_hw_cfg
  simp only [bmm_set_op_mode, World.call, mdelay, bmm_set_forced_mode]
  split_ifs <;> rfl

/-- An interval write of a value in `1..2^31-1` stores it. -/
theorem delay_store_ok (v count : Nat) (w : World) (h0 : 0 < v) (h1 : v ≤ 2147483647) :
    bmm_delay_store (.ok v) count w =
      ((count : Int), { w with cd := { w.cd with delay := (v : Int) } }) := by
  have e64 : wrapU 64 (v : Int) = v := by
    unfold wrapU; norm_num; omega
  have e32 : wrapS 32 (v : Int) = v := wrapS32_small _ (by omega) (by omega)
  have hv : ¬ ((v : Int) = 0) := by omega
  have hm : ¬ ((v : Int) < BMM_DELAY_MIN) := by unfold BMM_DELAY_MIN; omega
  simp only [bmm_delay_store, e64, hv, hm, if_false, e32]

/-- An enable write of 1 while sampling is disabled arms the task with the stored interval
(unless a run is already pending) and sets the flag. -/
theorem enable_store_on (count : Nat) (w : World) (h : w.cd.enable = 0) :
    bmm_enable_store (.ok 1) count w =
      ((count : Int),
       { w with cd := { w.cd with work := schedule_delayed_work w.cd.work w.cd.delay
                                  enable := 1 } }) := by
  have e1 : wrapU 64 1 = 1 := by decide
  have e11 : wrapU 1 1 = 1 := by decide
  simp [bmm_enable_store, e1, e11, h]

/-- `bmm_suspend` with the chip reporting powered: the task is cancelled when sampling is
enabled, and the chip is sent to Suspend; the stored mode is not touched. -/
theorem suspend_powered (c : Config) (hw : Hw) (w : World)
    (hp : wrapU 8 (hw w.trace.length).data ≠ 0) :
    bmm_suspend c hw w =
      ((hw (w.trace.length + 1)).err,
       { cd := { w.cd with work := if w.cd.enable ≠ 0 then none else w.cd.work
                           in_suspend := 1 }
         trace := w.trace ++ [.get_powermode, .set_functional_state c.SUSPEND_MODE] }) := by
  unfold bmm_suspend
  simp only [World.call, hwcall, hp, ne_eq, not_false_eq_true, if_true, bmm_pre_suspend,
    bmm_set_op_mode, cancel_delayed_work_sync]
  split_ifs <;> simp

/-- `bmm_suspend` with the chip reporting unpowered: only the power-state read is issued and
the client data is unchanged. -/
theorem suspend_unpowered (c : Config) (hw : Hw) (w : World)
    (hp : wrapU 8 (hw w.trace.length).data = 0) :
    bmm_suspend c hw w = (0, { w with trace := w.trace ++ [.get_powermode] }) := by
  unfold bmm_suspend
  simp [World.call, hwcall, hp]

/-- `bmm_resume` is `bmm_restore_hw_cfg` followed by the re-arming of `bmm_post_resume`. -/
theorem resume_eq (c : Config) (hw : Hw) (w : World) :
    (bmm_resume c hw w).2.trace = (bmm_restore_hw_cfg c hw w).2.trace ∧
    (bmm_resume c hw w).2.cd.op_mode = w.cd.op_mode ∧
    (bmm_resume c hw w).2.cd.work =
      (if w.cd.enable ≠ 0 then schedule_delayed_work w.cd.work w.cd.delay else w.cd.work) := by
  have h := restore_cd c hw w
  have hen : (bmm_restore_hw_cfg c hw w).2.cd.enable = w.cd.enable :=
    (congrArg bmm_client_data.enable h).trans rfl
  have hwk : (bmm_restore_hw_cfg c hw w).2.cd.work = w.cd.work :=
    (congrArg bmm_client_data.work h).trans rfl
  have hdl : (bmm_restore_hw_cfg c hw w).2.cd.delay = w.cd.delay :=
    (congrArg bmm_client_data.delay h).trans rfl
  have hop : (bmm_restore_hw_cfg c hw w).2.cd.op_mode = w.cd.op_mode :=
    (congrArg bmm_client_data.op_mode h).trans rfl
  simp only [bmm_resume, bmm_post_resume, hen, hwk, hdl]
  by_cases he : w.cd.enable = 0
  · simp [he, hwk, hop]
  · simp [he, hop]

/-- C8: from any successful attach, after a successful mode write to Normal, an interval
write of 200 and an enable write of 1, a suspend with the chip powered leaves the stored mode
Normal and cancels the sampling task; the following resume issues the mode write Sleep, the
mode write Normal, then the rate, XY-repetitions and Z-repetitions replay writes, and re-arms
the sampling task with the stored interval of 200 ms. -/
theorem suspend_resume_scenario (c : Config) (hc : c.WF) (hw : Hw) (env : ProbeEnv)
    (client : Nat) (d0 d1 : Driver) (cd1 : bmm_client_data) (n1 n2 n3 : Nat)
    (r2 r3 r4 r5 r6 : Int) (w2 w3 w4 w5 w6 : World)
    (hattach : bmm_probe c hw env client d0 = (0, d1))
    (hcd : d1.clientdata = some cd1)
    (hmode : bmm_op_mode_store c hw (.ok c.NORMAL_MODE.toNat) n1 ⟨cd1, d1.trace⟩ = (r2, w2))
    (hmode_ok : (hw d1.trace.length).err = 0)
    (hdelay : bmm_delay_store (.ok 200) n2 w2 = (r3, w3))
    (henable : bmm_enable_store (.ok 1) n3 w3 = (r4, w4))
    (hpowered : wrapU 8 (hw w4.trace.length).data ≠ 0)
    (hsuspend : bmm_suspend c hw w4 = (r5, w5))
    (hresume : bmm_resume c hw w5 = (r6, w6)) :
    r2 = n1 ∧ w2.cd.op_mode = c.NORMAL_MODE ∧ r3 = n2 ∧ r4 = n3 ∧ w4.cd.work = some 200 ∧
    w5.cd.op_mode = c.NORMAL_MODE ∧ w5.cd.work = none ∧ w5.cd.delay = 200 ∧
    w5.trace = w4.trace ++ [.get_powermode, .set_functional_state c.SUSPEND_MODE] ∧
    w6.trace = w5.trace ++
      [.set_functional_state c.SLEEP_MODE, .set_functional_state c.NORMAL_MODE,
       .set_datarate w5.cd.odr, .mdelay 5,
       .i2c_write .NO_REPETITIONS_XY w5.cd.rept_xy, .mdelay 5, .i2c_read .NO_REPETITIONS_XY 1,
       .i2c_write .NO_REPETITIONS_Z w5.cd.rept_z, .mdelay 5, .i2c_read .NO_REPETITIONS_Z 1]
      ++ (if c.DEBUG = true then [.i2c_read .CHIP_ID 64] else []) ∧
    w6.cd.op_mode = c.NORMAL_MODE ∧ w6.cd.work = some 200 := by
  have hN := code_range c hc c.NORMAL_MODE (by simp [op_mode_maps])
  have hS := code_range c hc c.SUSPEND_MODE (by simp [op_mode_maps])
  have hNS : c.NORMAL_MODE ≠ c.SUSPEND_MODE := hc.2.2.2.2.2.1
  have hNF : c.NORMAL_MODE ≠ c.FORCED_MODE := hc.2.2.2.2.1
  have hNmem : c.NORMAL_MODE ∈ op_mode_maps c := by simp [op_mode_maps]
  have hNU : c.NORMAL_MODE ≠ BMM_OP_MODE_UNKNOWN := by unfold BMM_OP_MODE_UNKNOWN; omega
  have hcd1 := (bmm_probe_ok c hw env client d0 d1 hattach).2
  rw [hcd] at hcd1
  have hcd1 := Option.some.inj hcd1
  have hop1 : cd1.op_mode = c.SUSPEND_MODE := by
    rw [hcd1]
    exact wrapS4_small _ (by omega) (by omega)
  have hen1 : cd1.enable = 0 := by rw [hcd1]; rfl
  have hwk1 : cd1.work = none := by rw [hcd1]; rfl
  -- the mode write
  rw [op_mode_store_code c hw n1 ⟨cd1, d1.trace⟩ c.NORMAL_MODE hN.1 hN.2 hNmem
    (by simp only [hop1]; exact Ne.symm hNS) hNF] at hmode
  simp only [hmode_ok, ne_eq, not_true_eq_false, if_false, if_true, Prod.mk.injEq] at hmode
  obtain ⟨hr2, hw2⟩ := hmode
  have h2op : w2.cd.op_mode = c.NORMAL_MODE := by rw [← hw2]
  have h2en : w2.cd.enable = 0 := by rw [← hw2]; exact hen1
  have h2wk : w2.cd.work = none := by rw [← hw2]; exact hwk1
  -- the interval write
  rw [delay_store_ok 200 n2 w2 (by decide) (by decide)] at hdelay
  simp only [Prod.mk.injEq] at hdelay
  obtain ⟨hr3, hw3⟩ := hdelay
  have h3op : w3.cd.op_mode = c.NORMAL_MODE := by rw [← hw3]; exact h2op
  have h3en : w3.cd.enable = 0 := by rw [← hw3]; exact h2en
  have h3wk : w3.cd.work = none := by rw [← hw3]; exact h2wk
  have h3dl : w3.cd.delay = 200 := by rw [← hw3]; rfl
  -- the enable write
  rw [enable_store_on n3 w3 h3en] at henable
  simp only [Prod.mk.injEq] at henable
  obtain ⟨hr4, hw4⟩ := henable
  have h4op : w4.cd.op_mode = c.NORMAL_MODE := by rw [← hw4]; exact h3op
  have h4en : w4.cd.enable = 1 := by rw [← hw4]
  have h4wk : w4.cd.work = some 200 := by
    rw [← hw4]; simp only [h3wk, h3dl, schedule_delayed_work]
  have h4dl : w4.cd.delay = 200 := by rw [← hw4]; exact h3dl
  -- suspend
  rw [suspend_powered c hw w4 hpowered] at hsuspend
  simp only [Prod.mk.injEq] at hsuspend
  obtain ⟨-, hw5⟩ := hsuspend
  have h5op : w5.cd.op_mode = c.NORMAL_MODE := by rw [← hw5]; exact h4op
  have h5en : w5.cd.enable = 1 := by rw [← hw5]; exact h4en
  have h5wk : w5.cd.work = none := by rw [← hw5]; simp [h4en]
  have h5dl : w5.cd.delay = 200 := by rw [← hw5]; exact h4dl
  have h5tr : w5.trace = w4.trace ++ [.get_powermode, .set_functional_state c.SUSPEND_MODE] := by
    rw [← hw5]
  -- resume
  have hres := resume_eq c hw w5
  rw [hresume] at hres
  obtain ⟨h6tr, h6op, h6wk⟩ := hres
  have hidx5 : bmm_get_op_mode_idx c c.NORMAL_MODE ≠ -1 :=
    (bmm_get_op_mode_idx_field c hc _ (by omega) (by omega)).mpr hNmem
  have hseq := restore_trace c hw w5
  simp only [h5op, hidx5, hNS, Ne.symm hNS, hNU, ne_eq, not_false_eq_true, if_true,
    if_false] at hseq
  refine ⟨hr2.symm, h2op, hr3.symm, hr4.symm, h4wk, h5op, h5wk, h5dl, h5tr, ?_, ?_, ?_⟩
  · simp only at h6tr
    rw [h6tr, hseq]
    simp
  · simp only at h6op
    rw [h6op, h5op]
  · simp only at h6wk
    rw [h6wk, h5en, h5wk, h5dl]
    simp [schedule_delayed_work]

/-- Witness of `suspend_resume_scenario`: the run on `hwGood` from `attached0`. -/
theorem suspend_resume_scenario_witness :
    cfg0.WF ∧
    bmm_probe cfg0 hwGood envGood 0 Driver.init =
      (0, { bmm_client := some 0, clientdata := some attached0.cd, trace := attached0.trace }) ∧
    (hwGood attached0.trace.length).err = 0 ∧
    wrapU 8 (hwGood sampling0.trace.length).data ≠ 0 ∧
    (bmm_resume cfg0 hwGood (bmm_suspend cfg0 hwGood sampling0).2).2.cd.work = some 200 :=
  ⟨by decide, by decide, by decide, by decide,
    (suspend_resume_scenario cfg0 (by decide) hwGood envGood 0 Driver.init
      { bmm_client := some 0, clientdata := some attached0.cd, trace := attached0.trace }
      attached0.cd 2 4 2
      (bmm_op_mode_store cfg0 hwGood (.ok 0) 2 attached0).1
      (bmm_delay_store (.ok 200) 4 (bmm_op_mode_store cfg0 hwGood (.ok 0) 2 attached0).2).1
      (bmm_enable_store (.ok 1) 2
        (bmm_delay_store (.ok 200) 4 (bmm_op_mode_store cfg0 hwGood (.ok 0) 2 attached0).2).2).1
      (bmm_suspend cfg0 hwGood sampling0).1
      (bmm_resume cfg0 hwGood (bmm_suspend cfg0 hwGood sampling0).2).1
      (bmm_op_mode_store cfg0 hwGood (.ok 0) 2 attached0).2
      (bmm_delay_store (.ok 200) 4 (bmm_op_mode_store cfg0 hwGood (.ok 0) 2 attached0).2).2
      sampling0
      (bmm_suspend cfg0 hwGood sampling0).2
      (bmm_resume cfg0 hwGood (bmm_suspend cfg0 hwGood sampling0).2).2
      (by decide) rfl rfl (by decide) rfl rfl (by decide) rfl rfl).2.2.2.2.2.2.2.2.2.2.2⟩

/-- C9, as stated, fails: on the attached instance with sampling enabled and a run armed, a
suspend during which the chip reports unpowered (the power-state read at position 7 returns 0)
issues only that read and leaves the run armed. -/
theorem suspend_unpowered_keeps_task_armed :
    bmm_probe cfg0 (hwZeroAt 7) envGood 0 Driver.init =
      (0, { bmm_client := some 0, clientdata := some attached0.cd, trace := attached0.trace }) ∧
    (bmm_enable_store (.ok 1) 2 attached0).2.cd.enable = 1 ∧
    (bmm_enable_store (.ok 1) 2 attached0).2.cd.work = some 200 ∧
    bmm_suspend cfg0 (hwZeroAt 7) (bmm_enable_store (.ok 1) 2 attached0).2 =
      (0, { cd := { attached0.cd with work := some 200, enable := 1 }
            trace := attached0.trace ++ [.get_powermode] }) := by
  decide

/-- C9 (amended): in every driver state in which sampling is enabled, `bmm_suspend` first
reads the chip power state; when the chip reports powered, the sampling task is cancelled (no
run is armed afterwards) and the chip is then sent to Suspend; when the chip reports
unpowered, nothing else is issued and the client data, the armed run included, is unchanged. -/
theorem suspend_cancels_task_when_powered (c : Config) (hw : Hw) (w : World)
    (hen : w.cd.enable ≠ 0) :
    (wrapU 8 (hw w.trace.length).data ≠ 0 →
      (bmm_suspend c hw w).2.cd.work = none ∧
      (bmm_suspend c hw w).2.trace =
        w.trace ++ [.get_powermode, .set_functional_state c.SUSPEND_MODE]) ∧
    (wrapU 8 (hw w.trace.length).data = 0 →
      (bmm_suspend c hw w).2.cd = w.cd ∧
      (bmm_suspend c hw w).2.trace = w.trace ++ [.get_powermode]) := by
  constructor
  · intro hp
    rw [suspend_powered c hw w hp]
    simp [hen]
  · intro hp
    rw [suspend_unpowered c hw w hp]
    simp

/-- Witness of `suspend_cancels_task_when_powered`: the instance `sampling0` on `hwGood`. -/
theorem suspend_cancels_task_when_powered_witness :
    sampling0.cd.enable ≠ 0 ∧ wrapU 8 (hwGood sampling0.trace.length).data ≠ 0 ∧
    (bmm_suspend cfg0 hwGood sampling0).2.cd.work = none :=
  ⟨by decide, by decide,
    ((suspend_cancels_task_when_powered cfg0 hwGood sampling0 (by decide)).1 (by decide)).1⟩

/-! ## Forced acquisition time -/

/-- Rounding up a quotient by 1000 with integer division. -/
theorem ceil_div_1000 (n : Int) : Int.ceil ((n : ℚ) / 1000) = (n + 999) / 1000 := by
  rw [Int.ceil_eq_iff]
  have h1 : 1000 * ((n + 999) / 1000) ≤ n + 999 := by omega
  have h2 : n + 999 < 1000 * ((n + 999) / 1000) + 1000 := by omega
  constructor
  · rw [lt_div_iff₀ (by norm_num : (0 : ℚ) < 1000)]
    have : ((n + 999) / 1000 - 1) * 1000 < n := by omega
    exact_mod_cast this
  · rw [div_le_iff₀ (by norm_num : (0 : ℚ) < 1000)]
    have : n ≤ ((n + 999) / 1000) * 1000 := by omega
    exact_mod_cast this

/-- C10: for repetition values in `0..255`, `bmm_get_forced_drdy_time rept_xy rept_z` is
`ceil((145 * rept_xy + 500 * rept_z + 980) / 1000)` exactly: no intermediate value of the
32-bit computation overflows (the sum with the rounding term is at most 166454); and for
9 and 15 the result is 10. -/
theorem forced_drdy_time_eq_ceil (rept_xy rept_z : Int)
    (hxy : 0 ≤ rept_xy ∧ rept_xy ≤ 255) (hz : 0 ≤ rept_z ∧ rept_z ≤ 255) :
    bmm_get_forced_drdy_time rept_xy rept_z =
      Int.ceil (((145 * rept_xy + 500 * rept_z + 980 : Int) : ℚ) / 1000) ∧
    wrapS 32 (wrapS 32 (wrapS 32 (wrapS 32 (145 * rept_xy) + wrapS 32 (500 * rept_z)) + 980)
      + (1000 - 1)) = 145 * rept_xy + 500 * rept_z + 980 + 999 ∧
    145 * rept_xy + 500 * rept_z + 980 + 999 ≤ 166454 ∧
    bmm_get_forced_drdy_time 9 15 = 10 := by
  have e1 : wrapS 32 (145 * rept_xy) = 145 * rept_xy := wrapS32_small _ (by omega) (by omega)
  have e2 : wrapS 32 (500 * rept_z) = 500 * rept_z := wrapS32_small _ (by omega) (by omega)
  have e3 : wrapS 32 (145 * rept_xy + 500 * rept_z) = 145 * rept_xy + 500 * rept_z :=
    wrapS32_small _ (by omega) (by omega)
  have e4 : wrapS 32 (145 * rept_xy + 500 * rept_z + 980) = 145 * rept_xy + 500 * rept_z + 980 :=
    wrapS32_small _ (by omega) (by omega)
  have e5 : wrapS 32 (145 * rept_xy + 500 * rept_z + 980 + (1000 - 1)) =
      145 * rept_xy + 500 * rept_z + 980 + 999 :=
    wrapS32_small _ (by omega) (by omega)
  refine ⟨?_, ?_, by omega, by decide⟩
  · unfold bmm_get_forced_drdy_time
    rw [e1, e2, e3, e4, e5, ceil_div_1000]
    exact Int.tdiv_eq_ediv (by omega) (by omega)
  · rw [e1, e2, e3, e4, e5]

/-- Witness of `forced_drdy_time_eq_ceil`: the repetitions 9 and 15. -/
theorem forced_drdy_time_eq_ceil_witness :
    ((0 : Int) ≤ 9 ∧ (9 : Int) ≤ 255) ∧ ((0 : Int) ≤ 15 ∧ (15 : Int) ≤ 255) ∧
    bmm_get_forced_drdy_time 9 15 =
      Int.ceil (((145 * 9 + 500 * 15 + 980 : Int) : ℚ) / 1000) :=
  ⟨by decide, by decide,
    (forced_drdy_time_eq_ceil 9 15 (by decide) (by decide)).1⟩

theorem wrapU64_small (x : Int) (h0 : 0 ≤ x) (h1 : x < 18446744073709551616) :
    wrapU 64 x = x := by
  unfold wrapU; norm_num; omega

/-- A rate or repetition write of a value above 255 is rejected before the chip is asked. -/
theorem odr_store_big (hw : Hw) (count v : Nat) (w : World) (h : 255 < wrapU 64 v) :
    bmm_odr_store hw (.ok v) count w = (- EINVAL, w) := by
  simp [bmm_odr_store, h]

/-- A rate write while the chip reports unpowered. -/
theorem odr_store_unpowered (hw : Hw) (count v : Nat) (w : World) (h : wrapU 64 v ≤ 255)
    (hp : wrapU 8 (hw w.trace.length).data = 0) :
    bmm_odr_store hw (.ok v) count w =
      (- EIO, { w with trace := w.trace ++ [.get_powermode] }) := by
  have h1 : ¬ (255 < wrapU 64 v) := by omega
  simp [bmm_odr_store, h1, World.call, hwcall, hp, EIO]

/-- A rate write of a value that is not in `odr_map`, the chip reporting powered. -/
theorem odr_store_unlisted (hw : Hw) (count v : Nat) (w : World) (h : wrapU 64 v ≤ 255)
    (hp : wrapU 8 (hw w.trace.length).data ≠ 0)
    (hnot : wrapU 8 (wrapU 64 v) ∉ odr_map) :
    bmm_odr_store hw (.ok v) count w =
      (- EINVAL, { w with trace := w.trace ++ [.get_powermode] }) := by
  have h1 : ¬ (255 < wrapU 64 v) := by omega
  have hidx : ¬ (odr_map.findIdx (fun m => m == wrapU 8 (wrapU 64 v)) < odr_map.length) := by
    rw [List.findIdx_lt_length]
    rintro ⟨x, hx, hxe⟩
    simp at hxe
    exact hnot (hxe ▸ hx)
  simp only [bmm_odr_store, gt_iff_lt, h1, if_false, World.call, hwcall, hp, ne_eq,
    not_false_eq_true, if_true, hidx]
  simp [EINVAL]

/-- A repetition write while the chip reports unpowered. -/
theorem rept_xy_store_unpowered (hw : Hw) (count v : Nat) (w : World) (h : wrapU 64 v ≤ 255)
    (hp : wrapU 8 (hw w.trace.length).data = 0) :
    bmm_rept_xy_store hw (.ok v) count w =
      (- EIO, { w with trace := w.trace ++ [.get_powermode] }) := by
  have h1 : ¬ (255 < wrapU 64 v) := by omega
  simp [bmm_rept_xy_store, h1, World.call, hwcall, hp, EIO]

theorem rept_z_store_unpowered (hw : Hw) (count v : Nat) (w : World) (h : wrapU 64 v ≤ 255)
    (hp : wrapU 8 (hw w.trace.length).data = 0) :
    bmm_rept_z_store hw (.ok v) count w =
      (- EIO, { w with trace := w.trace ++ [.get_powermode] }) := by
  have h1 : ¬ (255 < wrapU 64 v) := by omega
  simp [bmm_rept_z_store, h1, World.call, hwcall, hp, EIO]

/-! ## Sampling interval -/

/-- C11: in every driver state, the write of 0 to the sampling-interval endpoint fails with
`-EINVAL` and leaves the stored interval (the whole state) unchanged. -/
theorem delay_store_zero_rejected (count : Nat) (w : World) :
    bmm_delay_store (.ok 0) count w = (- EINVAL, w) ∧
    (bmm_delay_store (.ok 0) count w).2.cd.delay = w.cd.delay := by
  have e : wrapU 64 0 = 0 := by decide
  simp [bmm_delay_store, e]

/-- C12 fails on the code: after a successful attach (interval 200), the interval write of
2147483648 is accepted and stores -2147483648 in the `int` of the `delay` field, and the
interval write of 4294967296 is accepted and stores 0. -/
theorem interval_below_one_reachable :
    bmm_probe cfg0 hwGood envGood 0 Driver.init =
      (0, { bmm_client := some 0, clientdata := some attached0.cd, trace := attached0.trace }) ∧
    attached0.cd.delay = 200 ∧
    bmm_delay_store (.ok 2147483648) 11 attached0 =
      (11, { attached0 with cd := { attached0.cd with delay := -2147483648 } }) ∧
    bmm_delay_store (.ok 4294967296) 11 attached0 =
      (11, { attached0 with cd := { attached0.cd with delay := 0 } }) := by
  decide

/-! ## Rate and repetition endpoints -/

/-- C13: in every driver state with the chip reporting powered, a rate write of a value that
is not an entry of `odr_map` fails with `-EINVAL`, issues no set-rate call (a value above 255
is rejected before any call, any other after the power-state read alone) and leaves the stored
rate index, with the rest of the client data, unchanged. -/
theorem odr_store_unlisted_rejected (hw : Hw) (count v : Nat) (w : World)
    (hv : v < 2 ^ 64) (hnot : (v : Int) ∉ odr_map)
    (hp : wrapU 8 (hw w.trace.length).data ≠ 0) :
    (bmm_odr_store hw (.ok v) count w).1 = - EINVAL ∧
    (bmm_odr_store hw (.ok v) count w).2.cd = w.cd ∧
    (bmm_odr_store hw (.ok v) count w).2.cd.odr = w.cd.odr ∧
    (bmm_odr_store hw (.ok v) count w).2.trace =
      (if v ≤ 255 then w.trace ++ [.get_powermode] else w.trace) := by
  have e64 : wrapU 64 (v : Int) = v := wrapU64_small _ (by omega) (by omega)
  by_cases h : v ≤ 255
  · have e8 : wrapU 8 (v : Int) = v := wrapU8_small _ (by omega) (by omega)
    rw [odr_store_unlisted hw count v w (by rw [e64]; omega) hp (by rw [e64, e8]; exact hnot)]
    simp [h]
  · rw [odr_store_big hw count v w (by rw [e64]; omega)]
    simp [h]

/-- Witness of `odr_store_unlisted_rejected`: the rate 7 on `attached0`. -/
theorem odr_store_unlisted_rejected_witness :
    (7 : Nat) < 2 ^ 64 ∧ (((7 : Nat) : Int)) ∉ odr_map ∧
    wrapU 8 (hwGood attached0.trace.length).data ≠ 0 ∧
    (bmm_odr_store hwGood (.ok 7) 2 attached0).1 = - EINVAL :=
  ⟨by decide, by decide, by decide,
    (odr_store_unlisted_rejected hwGood 2 7 attached0 (by decide) (by decide) (by decide)).1⟩

/-- C14: for a written value in `0..255` and the chip reporting unpowered, each of the rate,
XY-repetitions and Z-repetitions endpoints rejects the write with `-EIO`, issues nothing but
the power-state read (no chip set call), and leaves the client data, the stored rate index and
repetition counts included, unchanged. -/
theorem stores_rejected_when_unpowered (hw : Hw) (count v : Nat) (w : World) (hv : v ≤ 255)
    (hp : wrapU 8 (hw w.trace.length).data = 0) :
    bmm_odr_store hw (.ok v) count w =
      (- EIO, { cd := w.cd, trace := w.trace ++ [.get_powermode] }) ∧
    bmm_rept_xy_store hw (.ok v) count w =
      (- EIO, { cd := w.cd, trace := w.trace ++ [.get_powermode] }) ∧
    bmm_rept_z_store hw (.ok v) count w =
      (- EIO, { cd := w.cd, trace := w.trace ++ [.get_powermode] }) := by
  have e64 : wrapU 64 (v : Int) = v := wrapU64_small _ (by omega) (by omega)
  have h : wrapU 64 (v : Int) ≤ 255 := by rw [e64]; omega
  exact ⟨odr_store_unpowered hw count v w h hp, rept_xy_store_unpowered hw count v w h hp,
    rept_z_store_unpowered hw count v w h hp⟩

/-- Witness of `stores_rejected_when_unpowered`: the value 6 on `attached0` with the chip
reporting unpowered at the power-state read. -/
theorem stores_rejected_when_unpowered_witness :
    (6 : Nat) ≤ 255 ∧ wrapU 8 ((hwZeroAt 7) attached0.trace.length).data = 0 ∧
    bmm_odr_store (hwZeroAt 7) (.ok 6) 2 attached0 =
      (- EIO, { cd := attached0.cd, trace := attached0.trace ++ [.get_powermode] }) :=
  ⟨by decide, by decide,
    (stores_rejected_when_unpowered (hwZeroAt 7) 2 6 attached0 (by decide) (by decide)).1⟩

/-- The table lookup of `bmm_odr_store` on a listed rate finds an index holding that rate. -/
theorem odr_idx_spec (x : Int) (h : x ∈ odr_map) :
    odr_map.findIdx (fun m => m == x) < odr_map.length ∧
    odr_map[odr_map.findIdx (fun m => m == x)]? = some x := by
  have hlt : odr_map.findIdx (fun m => m == x) < odr_map.length :=
    List.findIdx_lt_length.mpr ⟨x, h, by simp⟩
  refine ⟨hlt, ?_⟩
  rw [List.getElem?_eq_getElem hlt]
  have := List.findIdx_getElem (w := hlt)
  simp at this
  rw [this]

/-- A rate write of a listed value, the chip reporting powered: the set-rate call is issued
with the table index, and the index is stored when the call succeeds. -/
theorem odr_store_listed (hw : Hw) (count v : Nat) (w : World) (hv : v ≤ 255)
    (hp : wrapU 8 (hw w.trace.length).data ≠ 0) (hmem : (v : Int) ∈ odr_map) :
    bmm_odr_store hw (.ok v) count w =
      (if (hw (w.trace.length + 1)).err ≠ 0 then (hw (w.trace.length + 1)).err
       else (count : Int),
       { cd := { w.cd with
                 odr := if (hw (w.trace.length + 1)).err = 0 then
                          ((odr_map.findIdx (fun m => m == (v : Int)) : Nat) : Int)
                        else w.cd.odr }
         trace := w.trace ++ [.get_powermode,
           .set_datarate ((odr_map.findIdx (fun m => m == (v : Int)) : Nat) : Int),
           .mdelay 5] }) := by
  have e64 : wrapU 64 (v : Int) = v := wrapU64_small _ (by omega) (by omega)
  have e8 : wrapU 8 (v : Int) = v := wrapU8_small _ (by omega) (by omega)
  have h1 : ¬ (255 < (v : Int)) := by omega
  have hidx := (odr_idx_spec (v : Int) hmem).1
  have hi8 : wrapU 8 ((odr_map.findIdx (fun m => m == (v : Int)) : Nat) : Int) =
      ((odr_map.findIdx (fun m => m == (v : Int)) : Nat) : Int) := by
    apply wrapU8_small
    · omega
    · have : odr_map.length = 8 := rfl
      omega
  simp only [bmm_odr_store, e64, e8, gt_iff_lt, h1, if_false, World.call, hwcall, hp, ne_eq,
    not_false_eq_true, if_true, hidx, bmm_set_odr, hi8, mdelay, BMM_I2C_WRITE_DELAY_TIME]
  by_cases he : (hw (w.trace.length + 1)).err = 0
  · simp [he]
  · simp [he]

/-- An XY-repetitions write of a value in `0..255`, the chip reporting powered. -/
theorem rept_xy_store_powered (hw : Hw) (count v : Nat) (w : World) (hv : v ≤ 255)
    (hp : wrapU 8 (hw w.trace.length).data ≠ 0) :
    bmm_rept_xy_store hw (.ok v) count w =
      (if (hw (w.trace.length + 1)).err ≠ 0 then (hw (w.trace.length + 1)).err
       else (count : Int),
       { cd := { w.cd with
                 rept_xy := if (hw (w.trace.length + 1)).err = 0 then (v : Int)
                            else w.cd.rept_xy }
         trace := w.trace ++ [.get_powermode, .set_repetitions_XY v] ++
           (if (hw (w.trace.length + 1)).err = 0 then [.mdelay 5] else []) }) := by
  have e64 : wrapU 64 (v : Int) = v := wrapU64_small _ (by omega) (by omega)
  have e8 : wrapU 8 (v : Int) = v := wrapU8_small _ (by omega) (by omega)
  have h1 : ¬ (255 < (v : Int)) := by omega
  simp only [bmm_rept_xy_store, e64, e8, gt_iff_lt, h1, if_false, World.call, hwcall, hp,
    ne_eq, not_false_eq_true, if_true, mdelay, BMM_I2C_WRITE_DELAY_TIME]
  by_cases he : (hw (w.trace.length + 1)).err = 0
  · simp [he]
  · simp [he]

/-- A Z-repetitions write of a value in `0..255`, the chip reporting powered. -/
theorem rept_z_store_powered (hw : Hw) (count v : Nat) (w : World) (hv : v ≤ 255)
    (hp : wrapU 8 (hw w.trace.length).data ≠ 0) :
    bmm_rept_z_store hw (.ok v) count w =
      (if (hw (w.trace.length + 1)).err ≠ 0 then (hw (w.trace.length + 1)).err
       else (count : Int),
       { cd := { w.cd with
                 rept_z := if (hw (w.trace.length + 1)).err = 0 then (v : Int)
                           else w.cd.rept_z }
         trace := w.trace ++ [.get_powermode, .set_repetitions_Z v] ++
           (if (hw (w.trace.length + 1)).err = 0 then [.mdelay 5] else []) }) := by
  have e64 : wrapU 64 (v : Int) = v := wrapU64_small _ (by omega) (by omega)
  have e8 : wrapU 8 (v : Int) = v := wrapU8_small _ (by omega) (by omega)
  have h1 : ¬ (255 < (v : Int)) := by omega
  simp only [bmm_rept_z_store, e64, e8, gt_iff_lt, h1, if_false, World.call, hwcall, hp,
    ne_eq, not_false_eq_true, if_true, mdelay, BMM_I2C_WRITE_DELAY_TIME]
  by_cases he : (hw (w.trace.length + 1)).err = 0
  · simp [he]
  · simp [he]

/-- A repetition write of a value above 255 is rejected before the chip is asked. -/
theorem rept_xy_store_big (hw : Hw) (count v : Nat) (w : World) (h : 255 < wrapU 64 v) :
    bmm_rept_xy_store hw (.ok v) count w = (- EINVAL, w) := by
  simp [bmm_rept_xy_store, h]

theorem rept_z_store_big (hw : Hw) (count v : Nat) (w : World) (h : 255 < wrapU 64 v) :
    bmm_rept_z_store hw (.ok v) count w = (- EINVAL, w) := by
  simp [bmm_rept_z_store, h]

/-- The mode endpoint, whatever is written, keeps the rate index and repetition counts. -/
theorem op_mode_store_cfg (c : Config) (hw : Hw) (buf : Except Int Nat) (count : Nat)
    (w : World) : stored_cfg (bmm_op_mode_store c hw buf count w).2.cd = stored_cfg w.cd := by
  cases buf with
  | error e => rfl
  | ok v =>
    simp only [bmm_op_mode_store, bmm_set_forced_mode, bmm_set_op_mode, World.call]
    split_ifs <;> rfl

theorem enable_store_cfg (buf : Except Int Nat) (count : Nat) (w : World) :
    stored_cfg (bmm_enable_store buf count w).2.cd = stored_cfg w.cd := by
  cases buf with
  | error e => rfl
  | ok v =>
    simp only [bmm_enable_store]
    split_ifs <;> rfl

theorem delay_store_cfg (buf : Except Int Nat) (count : Nat) (w : World) :
    stored_cfg (bmm_delay_store buf count w).2.cd = stored_cfg w.cd := by
  cases buf with
  | error e => rfl
  | ok v =>
    simp only [bmm_delay_store]
    generalize wrapU 64 (v : Int) = data
    by_cases h : data = 0
    · rw [if_pos h]
    · rw [if_neg h]
      simp only [stored_cfg]

theorem work_func_cfg (c : Config) (hw : Hw) (w : World) :
    stored_cfg (bmm_work_func c hw w).cd = stored_cfg w.cd := by
  simp only [bmm_work_func, bmm_set_forced_mode, World.call]
  split_ifs <;> rfl

theorem restore_cfg (c : Config) (hw : Hw) (w : World) :
    stored_cfg (bmm_restore_hw_cfg c hw w).2.cd = stored_cfg w.cd := by
  rw [restore_cd c hw w]
  rfl

theorem suspend_cfg (c : Config) (hw : Hw) (w : World) :
    stored_cfg (bmm_suspend c hw w).2.cd = stored_cfg w.cd := by
  simp only [bmm_suspend, bmm_pre_suspend, bmm_set_op_mode, World.call]
  split_ifs <;> rfl

theorem resume_cfg (c : Config) (hw : Hw) (w : World) :
    stored_cfg (bmm_resume c hw w).2.cd = stored_cfg w.cd := by
  have h := restore_cfg c hw w
  simp only [bmm_resume, bmm_post_resume]
  split_ifs
  · exact h
  · exact h

/-- C15: the stored rate index and the stored XY and Z repetition counts change only inside a
write to their own endpoint whose chip set call returned success.  A rate write issues the
set-rate call exactly when the value is at most 255, the chip reports powered and the value
is in `odr_map`; a repetition write issues its set call exactly when the value is at most 255
and the chip reports powered.  When the set call succeeds the write returns `count` and the
own field, and nothing else of the client data, becomes the accepted value (a table index
holding the written rate, or the written count); when it fails the error is returned and the
client data is unchanged; when it is not issued the client data is unchanged.  The mode,
enable and interval endpoints, a sampling run, suspend, resume and the restore keep all three
fields. -/
theorem rate_and_repetitions_frame (c : Config) (hw : Hw) (buf : Except Int Nat)
    (count v : Nat) (w : World) (hv : v < 2 ^ 64) :
    ((v ≤ 255 ∧ wrapU 8 (hw w.trace.length).data ≠ 0 ∧ (v : Int) ∈ odr_map) →
      ∃ i : Nat, odr_map[i]? = some (v : Int) ∧
        (bmm_odr_store hw (.ok v) count w).2.trace =
          w.trace ++ [.get_powermode, .set_datarate i, .mdelay 5] ∧
        ((hw (w.trace.length + 1)).err = 0 →
          (bmm_odr_store hw (.ok v) count w).1 = count ∧
          (bmm_odr_store hw (.ok v) count w).2.cd = { w.cd with odr := i }) ∧
        ((hw (w.trace.length + 1)).err ≠ 0 →
          (bmm_odr_store hw (.ok v) count w).1 = (hw (w.trace.length + 1)).err ∧
          (bmm_odr_store hw (.ok v) count w).2.cd = w.cd)) ∧
    (¬ (v ≤ 255 ∧ wrapU 8 (hw w.trace.length).data ≠ 0 ∧ (v : Int) ∈ odr_map) →
      (bmm_odr_store hw (.ok v) count w).1 ≠ count ∧
      (bmm_odr_store hw (.ok v) count w).2.cd = w.cd) ∧
    ((v ≤ 255 ∧ wrapU 8 (hw w.trace.length).data ≠ 0) →
      (bmm_rept_xy_store hw (.ok v) count w).2.trace =
        w.trace ++ [.get_powermode, .set_repetitions_XY v] ++
          (if (hw (w.trace.length + 1)).err = 0 then [.mdelay 5] else []) ∧
      ((hw (w.trace.length + 1)).err = 0 →
        (bmm_rept_xy_store hw (.ok v) count w).1 = count ∧
        (bmm_rept_xy_store hw (.ok v) count w).2.cd = { w.cd with rept_xy := v }) ∧
      ((hw (w.trace.length + 1)).err ≠ 0 →
        (bmm_rept_xy_store hw (.ok v) count w).1 = (hw (w.trace.length + 1)).err ∧
        (bmm_rept_xy_store hw (.ok v) count w).2.cd = w.cd)) ∧
    (¬ (v ≤ 255 ∧ wrapU 8 (hw w.trace.length).data ≠ 0) →
      (bmm_rept_xy_store hw (.ok v) count w).1 ≠ count ∧
      (bmm_rept_xy_store hw (.ok v) count w).2.cd = w.cd) ∧
    ((v ≤ 255 ∧ wrapU 8 (hw w.trace.length).data ≠ 0) →
      (bmm_rept_z_store hw (.ok v) count w).2.trace =
        w.trace ++ [.get_powermode, .set_repetitions_Z v] ++
          (if (hw (w.trace.length + 1)).err = 0 then [.mdelay 5] else []) ∧
      ((hw (w.trace.length + 1)).err = 0 →
        (bmm_rept_z_store hw (.ok v) count w).1 = count ∧
        (bmm_rept_z_store hw (.ok v) count w).2.cd = { w.cd with rept_z := v }) ∧
      ((hw (w.trace.length + 1)).err ≠ 0 →
        (bmm_rept_z_store hw (.ok v) count w).1 = (hw (w.trace.length + 1)).err ∧
        (bmm_rept_z_store hw (.ok v) count w).2.cd = w.cd)) ∧
    (¬ (v ≤ 255 ∧ wrapU 8 (hw w.trace.length).data ≠ 0) →
      (bmm_rept_z_store hw (.ok v) count w).1 ≠ count ∧
      (bmm_rept_z_store hw (.ok v) count w).2.cd = w.cd) ∧
    stored_cfg (bmm_op_mode_store c hw buf count w).2.cd = stored_cfg w.cd ∧
    stored_cfg (bmm_enable_store buf count w).2.cd = stored_cfg w.cd ∧
    stored_cfg (bmm_delay_store buf count w).2.cd = stored_cfg w.cd ∧
    stored_cfg (bmm_work_func c hw w).cd = stored_cfg w.cd ∧
    stored_cfg (bmm_suspend c hw w).2.cd = stored_cfg w.cd ∧
    stored_cfg (bmm_resume c hw w).2.cd = stored_cfg w.cd ∧
    stored_cfg (bmm_restore_hw_cfg c hw w).2.cd = stored_cfg w.cd := by
  have e64 : wrapU 64 (v : Int) = v := wrapU64_small _ (by omega) (by omega)
  have hneg : (- EINVAL : Int) ≠ count := by unfold EINVAL; omega
  have hneg2 : (- EIO : Int) ≠ count := by unfold EIO; omega
  refine ⟨?_, ?_, ?_, ?_, ?_, ?_, op_mode_store_cfg c hw buf count w,
    enable_store_cfg buf count w, delay_store_cfg buf count w, work_func_cfg c hw w,
    suspend_cfg c hw w, resume_cfg c hw w, restore_cfg c hw w⟩
  · rintro ⟨h255, hp, hmem⟩
    refine ⟨odr_map.findIdx (fun m => m == (v : Int)), (odr_idx_spec _ hmem).2, ?_⟩
    rw [odr_store_listed hw count v w h255 hp hmem]
    refine ⟨rfl, ?_, ?_⟩
    · intro he
      simp [he]
    · intro he
      simp [he]
  · intro h
    by_cases h255 : v ≤ 255
    · by_cases hp : wrapU 8 (hw w.trace.length).data = 0
      · rw [odr_store_unpowered hw count v w (by rw [e64]; omega) hp]
        exact ⟨hneg2, rfl⟩
      · have hnot : (v : Int) ∉ odr_map := fun hm => h ⟨h255, hp, hm⟩
        have e8 : wrapU 8 (v : Int) = v := wrapU8_small _ (by omega) (by omega)
        rw [odr_store_unlisted hw count v w (by rw [e64]; omega) hp (by rw [e64, e8]; exact hnot)]
        exact ⟨hneg, rfl⟩
    · rw [odr_store_big hw count v w (by rw [e64]; omega)]
      exact ⟨hneg, rfl⟩
  · rintro ⟨h255, hp⟩
    rw [rept_xy_store_powered hw count v w h255 hp]
    refine ⟨rfl, ?_, ?_⟩
    · intro he
      simp [he]
    · intro he
      simp [he]
  · intro h
    by_cases h255 : v ≤ 255
    · have hp : wrapU 8 (hw w.trace.length).data = 0 := by
        by_contra hp
        exact h ⟨h255, hp⟩
      rw [rept_xy_store_unpowered hw count v w (by rw [e64]; omega) hp]
      exact ⟨hneg2, rfl⟩
    · rw [rept_xy_store_big hw count v w (by rw [e64]; omega)]
      exact ⟨hneg, rfl⟩
  · rintro ⟨h255, hp⟩
    rw [rept_z_store_powered hw count v w h255 hp]
    refine ⟨rfl, ?_, ?_⟩
    · intro he
      simp [he]
    · intro he
      simp [he]
  · intro h
    by_cases h255 : v ≤ 255
    · have hp : wrapU 8 (hw w.trace.length).data = 0 := by
        by_contra hp
        exact h ⟨h255, hp⟩
      rw [rept_z_store_unpowered hw count v w (by rw [e64]; omega) hp]
      exact ⟨hneg2, rfl⟩
    · rw [rept_z_store_big hw count v w (by rw [e64]; omega)]
      exact ⟨hneg, rfl⟩

/-- Witness of `rate_and_repetitions_frame`: the rate 6 written on `attached0`. -/
theorem rate_and_repetitions_frame_witness :
    (6 : Nat) < 2 ^ 64 ∧
    stored_cfg (bmm_work_func cfg0 hwGood attached0).cd = stored_cfg attached0.cd ∧
    stored_cfg (bmm_restore_hw_cfg cfg0 hwGood attached0).2.cd = stored_cfg attached0.cd :=
  ⟨by decide,
    (rate_and_repetitions_frame cfg0 hwGood (.ok 6) 2 6 attached0 (by decide)).2.2.2.2.2.2.2.2.2.1,
    (rate_and_repetitions_frame cfg0 hwGood (.ok 6) 2 6 attached0
      (by decide)).2.2.2.2.2.2.2.2.2.2.2.2⟩

/-! ## Axis remapping -/

/-- C16: for every sample triple and every placement index that is 0, negative (the unknown
value -1 included) or at least 8, `bst_remap_sensor_data_dft_tab` returns the triple
unchanged. -/
theorem remap_identity_outside_table (data : bosch_sensor_data) (place : Int)
    (h : place ≤ 0 ∨ 8 ≤ place) : bst_remap_sensor_data_dft_tab data place = data := by
  unfold bst_remap_sensor_data_dft_tab
  rw [if_pos]
  unfold MAX_AXIS_REMAP_TAB_SZ
  omega

/-- Witness of `remap_identity_outside_table`: the unknown placement -1. -/
theorem remap_identity_outside_table_witness :
    (BOSCH_SENSOR_PLACE_UNKNOWN ≤ 0 ∨ 8 ≤ BOSCH_SENSOR_PLACE_UNKNOWN) ∧
    bst_remap_sensor_data_dft_tab ⟨1, -2, -32768⟩ BOSCH_SENSOR_PLACE_UNKNOWN =
      ⟨1, -2, -32768⟩ :=
  ⟨by decide, remap_identity_outside_table ⟨1, -2, -32768⟩ BOSCH_SENSOR_PLACE_UNKNOWN
    (by decide)⟩

/-- A 16-bit value is unchanged by the conversion to `int16_t`. -/
theorem wrapS16_small (x : Int) (h0 : -32768 ≤ x) (h1 : x ≤ 32767) : wrapS 16 x = x := by
  unfold wrapS; norm_num; split_ifs <;> omega

/-- Negating a 16-bit value twice through `int16_t` gives it back, also for -32768. -/
theorem wrapS16_neg_neg (x : Int) (h0 : -32768 ≤ x) (h1 : x ≤ 32767) :
    wrapS 16 (wrapS 32 (wrapS 16 (wrapS 32 (x * -1)) * -1)) = x := by
  have e1 : wrapS 32 (x * -1) = x * -1 := wrapS32_small _ (by omega) (by omega)
  rw [e1]
  have hr : -32768 ≤ wrapS 16 (x * -1) ∧ wrapS 16 (x * -1) ≤ 32767 ∧
      (wrapS 16 (x * -1) = -x ∨ (x = -32768 ∧ wrapS 16 (x * -1) = -32768)) := by
    unfold wrapS; norm_num; split_ifs <;> omega
  obtain ⟨h2, h3, h4⟩ := hr
  have e2 : wrapS 32 (wrapS 16 (x * -1) * -1) = wrapS 16 (x * -1) * -1 :=
    wrapS32_small _ (by omega) (by omega)
  rw [e2]
  rcases h4 with h4 | ⟨hx, h4⟩
  · rw [h4]
    unfold wrapS; norm_num; split_ifs <;> omega
  · rw [h4, hx]
    decide

/-- Keeping a 16-bit value twice through `int16_t` gives it back. -/
theorem wrapS16_one_one (x : Int) (h0 : -32768 ≤ x) (h1 : x ≤ 32767) :
    wrapS 16 (wrapS 32 (wrapS 16 (wrapS 32 (x * 1)) * 1)) = x := by
  have e1 : wrapS 32 (x * 1) = x := by rw [mul_one]; exact wrapS32_small _ (by omega) (by omega)
  have e2 : wrapS 16 x = x := wrapS16_small x h0 h1
  rw [e1, e2, e1, e2]

/-- C17: for every placement `p` in `0..7` there is a placement `q` in `0..7` such that, for
every triple `t` of 16-bit values (those equal to -32768, whose negation wraps, included),
remapping `t` with `p` and then with `q` returns `t`. -/
theorem remap_round_trip (p : Int) (hp : 0 ≤ p ∧ p ≤ 7) :
    ∃ q : Int, (0 ≤ q ∧ q ≤ 7) ∧ ∀ t : bosch_sensor_data,
      (-32768 ≤ t.x ∧ t.x ≤ 32767) → (-32768 ≤ t.y ∧ t.y ≤ 32767) →
      (-32768 ≤ t.z ∧ t.z ≤ 32767) →
      bst_remap_sensor_data_dft_tab (bst_remap_sensor_data_dft_tab t p) q = t := by
  have a0 : wrapS 3 0 = 0 := by decide
  have a1 : wrapS 3 1 = 1 := by decide
  have a2 : wrapS 3 2 = 2 := by decide
  have b1 : wrapS 2 1 = 1 := by decide
  have b2 : wrapS 2 (-1) = -1 := by decide
  obtain ⟨h0, h7⟩ := hp
  have hq : p = 1 ∨ p = 3 ∨ (p ≠ 1 ∧ p ≠ 3) := by omega
  refine ⟨if p = 1 then 3 else if p = 3 then 1 else p, by split_ifs <;> omega, ?_⟩
  rintro ⟨x, y, z⟩ ⟨hx0, hx1⟩ ⟨hy0, hy1⟩ ⟨hz0, hz1⟩
  simp only at hx0 hx1 hy0 hy1 hz0 hz1
  have nx := wrapS16_neg_neg x hx0 hx1
  have ny := wrapS16_neg_neg y hy0 hy1
  have nz := wrapS16_neg_neg z hz0 hz1
  have ox := wrapS16_one_one x hx0 hx1
  have oy := wrapS16_one_one y hy0 hy1
  have oz := wrapS16_one_one z hz0 hz1
  interval_cases p <;>
    simp [bst_remap_sensor_data_dft_tab, MAX_AXIS_REMAP_TAB_SZ, bst_axis_remap_tab_dft,
      remap_entry, bst_remap_sensor_data, bosch_sensor_data.v, a0, a1, a2, b1, b2] <;>
    simp_all

/-- Witness of `remap_round_trip`: the placement 1. -/
theorem remap_round_trip_witness :
    ((0 : Int) ≤ 1 ∧ (1 : Int) ≤ 7) ∧
    ∃ q : Int, (0 ≤ q ∧ q ≤ 7) ∧ ∀ t : bosch_sensor_data,
      (-32768 ≤ t.x ∧ t.x ≤ 32767) → (-32768 ≤ t.y ∧ t.y ≤ 32767) →
      (-32768 ≤ t.z ∧ t.z ≤ 32767) →
      bst_remap_sensor_data_dft_tab (bst_remap_sensor_data_dft_tab t 1) q = t :=
  ⟨by decide, remap_round_trip 1 (by decide)⟩

/-! ## Attach and detach -/

/-- C18 fails on the code: with a chip whose identity register reads 0x31 on every one of the
five attempts, each read succeeding on the bus, `bmm_check_chip_id` returns 0, and
`bmm_probe` goes on and succeeds: the singleton and the client data are installed. -/
theorem chip_id_mismatch_accepted :
    (∀ n, (hwWrongId n).err = 0) ∧
    bmm_check_chip_id hwWrongId
        [.mdelay 5, .i2c_write .POWER_CNTL 1, .mdelay 5, .i2c_read .POWER_CNTL 1] =
      (0, [.mdelay 5, .i2c_write .POWER_CNTL 1, .mdelay 5, .i2c_read .POWER_CNTL 1,
           .i2c_read .CHIP_ID 1, .mdelay 1, .i2c_read .CHIP_ID 1, .mdelay 1,
           .i2c_read .CHIP_ID 1, .mdelay 1, .i2c_read .CHIP_ID 1, .mdelay 1,
           .i2c_read .CHIP_ID 1, .mdelay 1]) ∧
    (∀ n, n < 14 → n ≠ 3 → wrapU 8 (hwWrongId n).data ≠ SENSOR_CHIP_ID_BMM) ∧
    bmm_probe cfg0 hwWrongId envGood 0 Driver.init =
      (0, { bmm_client := some 0, clientdata := some attached0.cd,
            trace := [.mdelay 5, .i2c_write .POWER_CNTL 1, .mdelay 5, .i2c_read .POWER_CNTL 1,
              .i2c_read .CHIP_ID 1, .mdelay 1, .i2c_read .CHIP_ID 1, .mdelay 1,
              .i2c_read .CHIP_ID 1, .mdelay 1, .i2c_read .CHIP_ID 1, .mdelay 1,
              .i2c_read .CHIP_ID 1, .mdelay 1, .init, .set_functional_state 2] }) := by
  refine ⟨?_, by decide, ?_, by decide⟩
  · intro n
    unfold hwWrongId
    split_ifs <;> rfl
  · intro n _ h3
    unfold hwWrongId
    rw [if_neg h3]
    decide

/-- C19, as stated, fails: with client 0 attached, an attach of client 1 on an adapter that
fails the functionality check returns `-EIO`, not `-EBUSY`, and clears the singleton. -/
theorem second_attach_without_functionality :
    bmm_probe cfg0 hwGood envGood 0 Driver.init = (0, driver0) ∧
    bmm_probe cfg0 hwGood { envGood with i2c_check_functionality := false } 1 driver0 =
      (- EIO, { driver0 with bmm_client := none }) ∧
    (- EIO : Int) ≠ - EBUSY := by
  decide

/-- C19 (amended): for every attach attempted while a device is attached (the singleton is
set): when the adapter passes the functionality check, the attach fails with `-EBUSY`,
issues no call and leaves the driver, the singleton included, unchanged; when the adapter
fails the functionality check, the attach fails with `-EIO` and issues no call. -/
theorem second_attach_rejected (c : Config) (hw : Hw) (env : ProbeEnv) (client : Nat)
    (d : Driver) (h : d.bmm_client ≠ none) :
    (env.i2c_check_functionality = true →
      bmm_probe c hw env client d = (- EBUSY, d)) ∧
    (env.i2c_check_functionality = false →
      (bmm_probe c hw env client d).1 = - EIO ∧
      (bmm_probe c hw env client d).2.trace = d.trace ∧
      (bmm_probe c hw env client d).2.clientdata = d.clientdata) := by
  constructor
  · intro hf
    simp [bmm_probe, hf, h]
  · intro hf
    simp [bmm_probe, hf, probe_fail_early]

/-- Witness of `second_attach_rejected`: a second attach on the attached driver `driver0`. -/
theorem second_attach_rejected_witness :
    driver0.bmm_client ≠ none ∧ envGood.i2c_check_functionality = true ∧
    bmm_probe cfg0 hwGood envGood 1 driver0 = (- EBUSY, driver0) :=
  ⟨by decide, by decide,
    (second_attach_rejected cfg0 hwGood envGood 1 driver0 (by decide)).1 (by decide)⟩

/-- C20 fails on the code: on the attached instance with sampling enabled and a run armed
(the stored mode is still Suspend), `bmm_remove` sends the chip to Suspend and releases the
client data without cancelling the task: the run is still armed when the data is released. -/
theorem remove_leaves_task_armed :
    bmm_probe cfg0 hwGood envGood 0 Driver.init = (0, driver0) ∧
    bmm_enable_store (.ok 1) 2 attached0 =
      (2, { attached0 with cd := { attached0.cd with work := some 200, enable := 1 } }) ∧
    bmm_remove_quiesce cfg0 hwGood (bmm_enable_store (.ok 1) 2 attached0).2 =
      (0, { cd := { attached0.cd with work := some 200, enable := 1 }
            trace := attached0.trace ++ [.set_functional_state 2, .mdelay 5] }) ∧
    bmm_remove cfg0 hwGood
        { driver0 with clientdata := some (bmm_enable_store (.ok 1) 2 attached0).2.cd } =
      (0, { bmm_client := none, clientdata := none,
            trace := attached0.trace ++ [.set_functional_state 2, .mdelay 5] }) := by
  decide

/-! ## Self-test -/

/-- The basic self-test of `bmm_test_store`: five calls, then the reset and the replay when
the last of them, the result read, returned 0. -/
theorem test_store_basic (c : Config) (hw : Hw) (count : Nat) (w : World) :
    bmm_test_store c hw (.ok 1) count w =
      (if (hw (w.trace.length + 4)).err ≠ 0 then -1 else (count : Int),
       if (hw (w.trace.length + 4)).err = 0 then
         (bmm_restore_hw_cfg c hw
           { cd := { w.cd with
                     in_suspend := if c.SUSPEND_MODE = c.SLEEP_MODE then 1 else 0
                     result_test := wrapU 8 (hw (w.trace.length + 4)).data }
             trace := w.trace ++ [.set_functional_state c.SLEEP_MODE, .mdelay 3,
               .set_selftest 1, .mdelay 3, .get_self_test_XYZ, .soft_reset, .mdelay 5] }).2
       else
         { cd := { w.cd with
                   in_suspend := if c.SUSPEND_MODE = c.SLEEP_MODE then 1 else 0
                   result_test := wrapU 8 (hw (w.trace.length + 4)).data }
           trace := w.trace ++ [.set_functional_state c.SLEEP_MODE, .mdelay 3,
             .set_selftest 1, .mdelay 3, .get_self_test_XYZ] }) := by
  have e : wrapU 64 1 = 1 := by decide
  simp only [bmm_test_store, Nat.cast_one, e, BMM_SELF_TEST, if_true, bmm_set_op_mode,
    World.call, hwcall, mdelay, BMM_I2C_WRITE_DELAY_TIME, List.length_append,
    List.length_singleton, List.append_assoc, List.singleton_append, List.cons_append,
    List.nil_append]
  by_cases he : (hw (w.trace.length + 4)).err = 0
  · simp [he]
  · simp [he]

/-- The advanced self-test of `bmm_test_store`: one call, then the reset and the replay when
it returned 0. -/
theorem test_store_advanced (c : Config) (hw : Hw) (count : Nat) (w : World) :
    bmm_test_store c hw (.ok 2) count w =
      (if (hw w.trace.length).err ≠ 0 then -1 else (count : Int),
       if (hw w.trace.length).err = 0 then
         (bmm_restore_hw_cfg c hw
           { cd := { w.cd with result_test := wrapS 16 (hw w.trace.length).data }
             trace := w.trace ++ [.perform_advanced_selftest, .soft_reset, .mdelay 5] }).2
       else
         { cd := { w.cd with result_test := wrapS 16 (hw w.trace.length).data }
           trace := w.trace ++ [.perform_advanced_selftest] }) := by
  have e : wrapU 64 2 = 2 := by decide
  simp only [bmm_test_store, Nat.cast_ofNat, e, BMM_SELF_TEST, BMM_ADV_TEST, if_true,
    World.call, hwcall, mdelay, BMM_I2C_WRITE_DELAY_TIME, List.length_append,
    List.length_singleton, List.append_assoc, List.singleton_append, List.cons_append,
    List.nil_append]
  by_cases he : (hw w.trace.length).err = 0
  · simp [he]
  · simp [he]

/-- Any other parsed value is rejected at once. -/
theorem test_store_other (c : Config) (hw : Hw) (count v : Nat) (w : World)
    (hv : v < 2 ^ 64) (h1 : v ≠ 1) (h2 : v ≠ 2) :
    bmm_test_store c hw (.ok v) count w = (-1, w) := by
  have e64 : wrapU 64 (v : Int) = v := by
    unfold wrapU; norm_num; omega
  have n1 : ¬ ((v : Int) = BMM_SELF_TEST) := by unfold BMM_SELF_TEST; omega
  have n2 : ¬ ((v : Int) = BMM_ADV_TEST) := by unfold BMM_ADV_TEST; omega
  simp [bmm_test_store, e64, n1, n2, EINVAL]

/-- C21, as stated, fails: on the attached instance, a basic self-test whose Sleep mode write
and whose trigger both fail, and whose result read succeeds and reports 0 (no axis passed),
is followed by the chip soft reset and the full replay, and the write returns `count`: the
self-test did not succeed, yet the reset and replay are performed. -/
theorem self_test_replay_after_failed_trigger :
    bmm_probe cfg0 hwTriggerFails envGood 0 Driver.init = (0, driver0) ∧
    (hwTriggerFails (attached0.trace.length + 0)).err = - EIO ∧
    (hwTriggerFails (attached0.trace.length + 2)).err = - EIO ∧
    hwTriggerFails (attached0.trace.length + 4) = ⟨0, 0, zeroSample⟩ ∧
    bmm_test_store cfg0 hwTriggerFails (.ok 1) 2 attached0 =
      (2, { cd := { attached0.cd with in_suspend := 1, result_test := 0 }
            trace := attached0.trace ++ [.set_functional_state 3, .mdelay 3, .set_selftest 1,
              .mdelay 3, .get_self_test_XYZ, .soft_reset, .mdelay 5,
              .set_functional_state 3, .set_functional_state 2] }) := by
  decide

/-- C21 (amended): for every driver state and every parsed value written to the self-test
endpoint.  Value 1 runs the basic self-test (Sleep mode write, trigger, result read) and
value 2 the advanced one (one chip call).  The chip soft reset, the 5 ms delay and the whole
of `bmm_restore_hw_cfg` follow, and the write returns `count`, exactly when the value is 1
and the result read `get_self_test_XYZ` returned 0, or the value is 2 and
`perform_advanced_selftest` returned 0; for the basic variant neither the return values of
the Sleep mode write and of the trigger nor the result byte are consulted.  Otherwise the
write returns -1 and nothing follows the self-test calls.  Any other value returns -1, issues
no call and leaves the client data, the stored result code included, unchanged. -/
theorem self_test_reset_and_replay (c : Config) (hw : Hw) (count v : Nat) (w : World)
    (hv : v < 2 ^ 64) :
    (v = 1 →
      ((hw (w.trace.length + 4)).err = 0 →
        bmm_test_store c hw (.ok v) count w =
          ((count : Int),
           (bmm_restore_hw_cfg c hw
             { cd := { w.cd with
                       in_suspend := if c.SUSPEND_MODE = c.SLEEP_MODE then 1 else 0
                       result_test := wrapU 8 (hw (w.trace.length + 4)).data }
               trace := w.trace ++ [.set_functional_state c.SLEEP_MODE, .mdelay 3,
                 .set_selftest 1, .mdelay 3, .get_self_test_XYZ, .soft_reset, .mdelay 5] }).2)) ∧
      ((hw (w.trace.length + 4)).err ≠ 0 →
        (bmm_test_store c hw (.ok v) count w).1 = -1 ∧
        (bmm_test_store c hw (.ok v) count w).2.trace =
          w.trace ++ [.set_functional_state c.SLEEP_MODE, .mdelay 3,
            .set_selftest 1, .mdelay 3, .get_self_test_XYZ])) ∧
    (v = 2 →
      ((hw w.trace.length).err = 0 →
        bmm_test_store c hw (.ok v) count w =
          ((count : Int),
           (bmm_restore_hw_cfg c hw
             { cd := { w.cd with result_test := wrapS 16 (hw w.trace.length).data }
               trace := w.trace ++ [.perform_advanced_selftest, .soft_reset, .mdelay 5] }).2)) ∧
      ((hw w.trace.length).err ≠ 0 →
        (bmm_test_store c hw (.ok v) count w).1 = -1 ∧
        (bmm_test_store c hw (.ok v) count w).2.trace =
          w.trace ++ [.perform_advanced_selftest])) ∧
    (v ≠ 1 → v ≠ 2 →
      bmm_test_store c hw (.ok v) count w = (-1, w) ∧
      (bmm_test_store c hw (.ok v) count w).2.trace = w.trace ∧
      (bmm_test_store c hw (.ok v) count w).2.cd.result_test = w.cd.result_test) := by
  refine ⟨?_, ?_, ?_⟩
  · rintro rfl
    rw [test_store_basic c hw count w]
    constructor
    · intro he
      simp [he]
    · intro he
      simp [he]
  · rintro rfl
    rw [test_store_advanced c hw count w]
    constructor
    · intro he
      simp [he]
    · intro he
      simp [he]
  · intro h1 h2
    rw [test_store_other c hw count v w hv h1 h2]
    exact ⟨rfl, rfl, rfl⟩

/-- Witness of `self_test_reset_and_replay`: the basic self-test on `attached0`. -/
theorem self_test_reset_and_replay_witness :
    (1 : Nat) < 2 ^ 64 ∧ (hwGood (attached0.trace.length + 4)).err = 0 ∧
    (bmm_test_store cfg0 hwGood (.ok 1) 2 attached0).2.trace =
      attached0.trace ++ [.set_functional_state 3, .mdelay 3, .set_selftest 1, .mdelay 3,
        .get_self_test_XYZ, .soft_reset, .mdelay 5, .set_functional_state 3,
        .set_functional_state 2] :=
  ⟨by decide, by decide, by
    rw [((self_test_reset_and_replay cfg0 hwGood 2 1 attached0 (by decide)).1 rfl).1
      (by decide)]
    decide⟩

/-! ## Sampling task -/

/-- C22: in every driver state, one run of `bmm_work_func` issues the forced-acquisition write
exactly when the stored mode is not Normal, then one sample read, then the three axis reports
of the sample it publishes and the input sync; it re-arms itself with the stored interval and
leaves the stored mode, the enable flag, the interval, the rate index and the repetition
counts unchanged. -/
theorem sampling_run (c : Config) (hw : Hw) (w : World) :
    (bmm_work_func c hw w).trace =
      w.trace ++ (if w.cd.op_mode ≠ c.NORMAL_MODE then [.i2c_write .CONTROL 0x02] else [])
        ++ [.read_mdataXYZ_s32,
            .input_report_abs .ABS_X (bmm_work_func c hw w).cd.value.datax,
            .input_report_abs .ABS_Y (bmm_work_func c hw w).cd.value.datay,
            .input_report_abs .ABS_Z (bmm_work_func c hw w).cd.value.dataz,
            .input_sync] ∧
    (bmm_work_func c hw w).cd.work = some w.cd.delay ∧
    (bmm_work_func c hw w).cd.op_mode = w.cd.op_mode ∧
    (bmm_work_func c hw w).cd.enable = w.cd.enable ∧
    (bmm_work_func c hw w).cd.delay = w.cd.delay ∧
    (bmm_work_func c hw w).cd.odr = w.cd.odr ∧
    (bmm_work_func c hw w).cd.rept_xy = w.cd.rept_xy ∧
    (bmm_work_func c hw w).cd.rept_z = w.cd.rept_z := by
  by_cases h : c.NORMAL_MODE = w.cd.op_mode
  · have h2 : w.cd.op_mode = c.NORMAL_MODE := h.symm
    simp [bmm_work_func, bmm_set_forced_mode, World.call, hwcall, h, schedule_delayed_work]
  · have h2 : ¬ (w.cd.op_mode = c.NORMAL_MODE) := fun e => h e.symm
    simp [bmm_work_func, bmm_set_forced_mode, World.call, hwcall, h, h2,
      schedule_delayed_work]

/-- C23, as stated, fails for the sampling task: on the attached instance, a run of
`bmm_work_func` whose sample read returns (5, 6, 7) with the data-ready flag clear replaces the
published sample by it. -/
theorem sampling_run_publishes_unready_sample :
    bmm_probe cfg0 (hwSample ⟨5, 6, 7, 0, 0⟩) envGood 0 Driver.init = (0, driver0) ∧
    ((hwSample ⟨5, 6, 7, 0, 0⟩) (attached0.trace.length + 1)).sample.drdy = 0 ∧
    attached0.cd.value = ⟨0, 0, 0, 0, 0⟩ ∧
    (bmm_work_func cfg0 (hwSample ⟨5, 6, 7, 0, 0⟩) attached0).trace =
      attached0.trace ++ [.i2c_write .CONTROL 0x02, .read_mdataXYZ_s32,
        .input_report_abs .ABS_X 5, .input_report_abs .ABS_Y 6, .input_report_abs .ABS_Z 7,
        .input_sync] ∧
    (bmm_work_func cfg0 (hwSample ⟨5, 6, 7, 0, 0⟩) attached0).cd.value = ⟨5, 6, 7, 0, 0⟩ := by
  decide

/-- C23 (amended): a measurement read (`bmm_value_show`) modifies the published sample only
when the sample returned by the chip has its data-ready flag set, and then stores the
remapped sample; when the flag is clear the client data is unchanged.  A run of the sampling
task (`bmm_work_func`) stores the remapped sample returned by the chip on every run, whatever
its data-ready flag. -/
theorem published_sample_updates (c : Config) (hw : Hw) (w : World) :
    ((hw w.trace.length).sample.drdy = 0 → (bmm_value_show hw w).2.cd = w.cd) ∧
    ((hw w.trace.length).sample.drdy ≠ 0 →
      (bmm_value_show hw w).2.cd =
        { w.cd with value := bmm_remap_sensor_data (hw w.trace.length).sample w.cd }) ∧
    (c.NORMAL_MODE = w.cd.op_mode →
      (bmm_work_func c hw w).cd.value =
        bmm_remap_sensor_data (hw w.trace.length).sample w.cd) ∧
    (c.NORMAL_MODE ≠ w.cd.op_mode →
      (bmm_work_func c hw w).cd.value =
        bmm_remap_sensor_data (hw (w.trace.length + 1)).sample w.cd) := by
  refine ⟨?_, ?_, ?_, ?_⟩
  · intro h
    simp [bmm_value_show, World.call, hwcall, h]
  · intro h
    simp [bmm_value_show, World.call, hwcall, h]
  · intro h
    simp [bmm_work_func, World.call, hwcall, h, bmm_remap_sensor_data]
  · intro h
    simp [bmm_work_func, bmm_set_forced_mode, World.call, hwcall, h, bmm_remap_sensor_data]

/-- Witness of `published_sample_updates`: a measurement read on `attached0` with the data
not ready. -/
theorem published_sample_updates_witness :
    ((hwSample ⟨5, 6, 7, 0, 0⟩) attached0.trace.length).sample.drdy = 0 ∧
    (bmm_value_show (hwSample ⟨5, 6, 7, 0, 0⟩) attached0).2.cd = attached0.cd :=
  ⟨by decide,
    (published_sample_updates cfg0 (hwSample ⟨5, 6, 7, 0, 0⟩) attached0).1 (by decide)⟩

/-! ## Remap of published samples -/

/-- C25 fails on the code: with platform data of placement 0, `bmm_remap_sensor_data` maps the
sample (40000, -40000, 32768) to (-25536, 25536, -32768): the components pass through the
`int16_t` members of `struct bosch_sensor_data`.  A sample within the 16-bit range is
returned unchanged. -/
theorem remap_truncates_wide_sample :
    attached0.cd.bst_pd = some 0 ∧
    bmm_remap_sensor_data ⟨40000, -40000, 32768, 0, 1⟩ attached0.cd =
      ⟨-25536, 25536, -32768, 0, 1⟩ ∧
    bmm_remap_sensor_data ⟨32767, -32768, 5, 0, 1⟩ attached0.cd = ⟨32767, -32768, 5, 0, 1⟩ := by
  decide

/-! ## The suspend flag -/

/-- The most recent mode request of a trace extended by further calls. -/
theorem last_mode_request_append (t l : List HwCall) :
    last_mode_request (t ++ l) = (last_mode_request l).or (last_mode_request t) := by
  unfold last_mode_request
  rw [List.reverse_append, List.findSome?_append]

/-- The property reads the flag and the trace only. -/
theorem flag_congr (c : Config) (w w1 : World) (h : SuspendFlagOk c w)
    (h1 : w1.cd.in_suspend = w.cd.in_suspend) (h2 : w1.trace = w.trace) :
    SuspendFlagOk c w1 := by
  unfold SuspendFlagOk at h ⊢
  rw [h1, h2]
  exact h

theorem set_op_mode_flag (c : Config) (hw : Hw) (m : Int) (w : World) :
    SuspendFlagOk c (bmm_set_op_mode c hw m w).2 := by
  simp only [SuspendFlagOk, bmm_set_op_mode, World.call, hwcall, last_mode_request_append]
  by_cases h : c.SUSPEND_MODE = m
  · simp [last_mode_request, h]
  · have h2 : ¬ (m = c.SUSPEND_MODE) := fun e => h e.symm
    simp [last_mode_request, h, h2]

theorem restore_flag (c : Config) (hw : Hw) (w : World) :
    SuspendFlagOk c (bmm_restore_hw_cfg c hw w).2 := by
  have h1 := set_op_mode_flag c hw c.SLEEP_MODE w
  have h2 := set_op_mode_flag c hw (bmm_set_op_mode c hw c.SLEEP_MODE w).2.cd.op_mode
    (bmm_set_op_mode c hw c.SLEEP_MODE w).2
  unfold bmm_restore_hw_cfg
  simp only
  split_ifs
  all_goals first
    | exact h2
    | exact h1
    | (simp only [SuspendFlagOk, World.call, hwcall, mdelay, bmm_set_forced_mode,
        bmm_dump_reg] at h1 h2 ⊢
       split_ifs <;> simp_all [last_mode_request_append, last_mode_request, Option.or])



theorem op_mode_store_flag (c : Config) (hw : Hw) (buf : Except Int Nat) (count : Nat)
    (w : World) (h : SuspendFlagOk c w) :
    SuspendFlagOk c (bmm_op_mode_store c hw buf count w).2 := by
  cases buf with
  | error e => exact h
  | ok v =>
    simp only [bmm_op_mode_store]
    generalize wrapS 64 (v : Int) = m
    generalize bmm_get_op_mode_idx c m = i
    generalize wrapS 32 m = m32
    generalize wrapS 4 m = m4
    simp only [SuspendFlagOk, bmm_set_forced_mode, bmm_set_op_mode, World.call, hwcall]
      at h ⊢
    split_ifs <;> simp_all [last_mode_request_append, last_mode_request, Option.or]

theorem odr_store_flag (c : Config) (hw : Hw) (buf : Except Int Nat) (count : Nat)
    (w : World) (h : SuspendFlagOk c w) :
    SuspendFlagOk c (bmm_odr_store hw buf count w).2 := by
  cases buf with
  | error e => exact h
  | ok v =>
    simp only [bmm_odr_store]
    generalize wrapU 64 (v : Int) = m
    generalize odr_map.findIdx (fun x => x == wrapU 8 m) = i
    generalize wrapU 8 (i : Int) = j
    generalize odr_map.length = n
    simp only [SuspendFlagOk, bmm_set_odr, mdelay, World.call, hwcall] at h ⊢
    split_ifs <;> simp_all [last_mode_request_append, last_mode_request, Option.or]

theorem rept_xy_store_flag (c : Config) (hw : Hw) (buf : Except Int Nat) (count : Nat)
    (w : World) (h : SuspendFlagOk c w) :
    SuspendFlagOk c (bmm_rept_xy_store hw buf count w).2 := by
  cases buf with
  | error e => exact h
  | ok v =>
    simp only [bmm_rept_xy_store]
    generalize wrapU 64 (v : Int) = m
    generalize wrapU 8 m = j
    simp only [SuspendFlagOk, mdelay, World.call, hwcall] at h ⊢
    split_ifs <;> simp_all [last_mode_request_append, last_mode_request, Option.or]

theorem rept_z_store_flag (c : Config) (hw : Hw) (buf : Except Int Nat) (count : Nat)
    (w : World) (h : SuspendFlagOk c w) :
    SuspendFlagOk c (bmm_rept_z_store hw buf count w).2 := by
  cases buf with
  | error e => exact h
  | ok v =>
    simp only [bmm_rept_z_store]
    generalize wrapU 64 (v : Int) = m
    generalize wrapU 8 m = j
    simp only [SuspendFlagOk, mdelay, World.call, hwcall] at h ⊢
    split_ifs <;> simp_all [last_mode_request_append, last_mode_request, Option.or]

theorem enable_store_flag (c : Config) (buf : Except Int Nat) (count : Nat)
    (w : World) (h : SuspendFlagOk c w) :
    SuspendFlagOk c (bmm_enable_store buf count w).2 := by
  cases buf with
  | error e => exact h
  | ok v =>
    simp only [bmm_enable_store]
    generalize wrapU 64 (v : Int) = m
    split_ifs
    all_goals exact h

theorem delay_store_flag (c : Config) (buf : Except Int Nat) (count : Nat)
    (w : World) (h : SuspendFlagOk c w) :
    SuspendFlagOk c (bmm_delay_store buf count w).2 := by
  cases buf with
  | error e => exact h
  | ok v =>
    simp only [bmm_delay_store]
    generalize wrapU 64 (v : Int) = m
    by_cases h0 : m = 0
    · rw [if_pos h0]
      exact h
    · rw [if_neg h0]
      exact flag_congr c w _ h rfl rfl

theorem test_store_flag (c : Config) (hw : Hw) (buf : Except Int Nat) (count : Nat)
    (w : World) (h : SuspendFlagOk c w) :
    SuspendFlagOk c (bmm_test_store c hw buf count w).2 := by
  cases buf with
  | error e => exact h
  | ok v =>
    simp only [bmm_test_store]
    generalize wrapU 64 (v : Int) = m
    split_ifs
    all_goals first
      | exact restore_flag c hw _
      | exact h
      | (simp only [SuspendFlagOk, bmm_set_op_mode, mdelay, World.call, hwcall] at h ⊢
         split_ifs <;> simp_all [last_mode_request_append, last_mode_request, Option.or])

theorem value_show_flag (c : Config) (hw : Hw) (w : World) (h : SuspendFlagOk c w) :
    SuspendFlagOk c (bmm_value_show hw w).2 := by
  simp only [bmm_value_show, SuspendFlagOk, World.call, hwcall] at h ⊢
  split_ifs <;> simp_all [last_mode_request_append, last_mode_request, Option.or]

theorem work_func_flag (c : Config) (hw : Hw) (w : World) (h : SuspendFlagOk c w) :
    SuspendFlagOk c (bmm_work_func c hw w) := by
  simp only [bmm_work_func, bmm_set_forced_mode, SuspendFlagOk, World.call, hwcall] at h ⊢
  split_ifs <;> simp_all [last_mode_request_append, last_mode_request, Option.or]

theorem suspend_flag (c : Config) (hw : Hw) (w : World) (h : SuspendFlagOk c w) :
    SuspendFlagOk c (bmm_suspend c hw w).2 := by
  simp only [bmm_suspend]
  split_ifs
  · exact set_op_mode_flag c hw _ _
  · simp only [SuspendFlagOk, World.call, hwcall] at h ⊢
    simp_all [last_mode_request_append, last_mode_request, Option.or]

theorem resume_flag (c : Config) (hw : Hw) (w : World) :
    SuspendFlagOk c (bmm_resume c hw w).2 := by
  have hr := restore_flag c hw w
  simp only [bmm_resume, bmm_post_resume]
  split_ifs
  · exact flag_congr c _ _ hr rfl rfl
  · exact hr

/-- Every operation keeps the flag in step with the most recent mode request. -/
theorem step_flag (c : Config) (hw : Hw) (op : Op) (w : World) (h : SuspendFlagOk c w) :
    SuspendFlagOk c (step c hw op w) := by
  cases op with
  | op_mode_store buf count => exact op_mode_store_flag c hw buf count w h
  | odr_store buf count => exact odr_store_flag c hw buf count w h
  | rept_xy_store buf count => exact rept_xy_store_flag c hw buf count w h
  | rept_z_store buf count => exact rept_z_store_flag c hw buf count w h
  | enable_store buf count => exact enable_store_flag c buf count w h
  | delay_store buf count => exact delay_store_flag c buf count w h
  | test_store buf count => exact test_store_flag c hw buf count w h
  | value_show => exact value_show_flag c hw w h
  | work_func => exact work_func_flag c hw w h
  | suspend => exact suspend_flag c hw w h
  | resume => exact resume_flag c hw w
  | shutdown => exact set_op_mode_flag c hw _ _

/-- A successful `bmm_probe` ends with the mode request for Suspend. -/
theorem bmm_probe_ok_trace (c : Config) (hw : Hw) (env : ProbeEnv) (client : Nat)
    (d d1 : Driver) (h : bmm_probe c hw env client d = (0, d1)) :
    last_mode_request d1.trace = some c.SUSPEND_MODE := by
  unfold bmm_probe at h
  simp only [probe_fail, probe_fail_early, EIO, EBUSY, ENOMEM] at h
  split_ifs at h with h1 h2 h3 h4 h5 h6 h7 h8
  all_goals simp only [Prod.mk.injEq] at h
  all_goals first
    | (exfalso; omega)
    | skip
  · obtain ⟨-, rfl⟩ := h
    simp [bmm_set_op_mode, World.call, hwcall, last_mode_request_append, last_mode_request]

/-- A run of operations keeps the flag in step with the most recent mode request. -/
theorem run_flag (c : Config) (hw : Hw) (ops : List Op) (w : World)
    (h : SuspendFlagOk c w) : SuspendFlagOk c (run c hw ops w) := by
  induction ops generalizing w with
  | nil => exact h
  | cons op ops ih => exact ih _ (step_flag c hw op w h)

/-- C24, as stated, fails in both directions.  On the attached instance: after a mode write
to Normal and a suspend with the chip powered, `in_suspend` is 1 while the stored mode is
still Normal; after a Forced request, `in_suspend` is 1 while the stored mode is the marker;
and after a basic self-test whose result read fails (the call at position 11), `in_suspend`
is 0 while the stored mode is Suspend. -/
theorem in_suspend_differs_from_stored_mode :
    bmm_probe cfg0 hwGood envGood 0 Driver.init = (0, driver0) ∧
    (run cfg0 hwGood [.op_mode_store (.ok 0) 2, .suspend] attached0).cd.in_suspend = 1 ∧
    (run cfg0 hwGood [.op_mode_store (.ok 0) 2, .suspend] attached0).cd.op_mode =
      cfg0.NORMAL_MODE ∧
    (run cfg0 hwGood [.op_mode_store (.ok 1) 2] attached0).cd.in_suspend = 1 ∧
    (run cfg0 hwGood [.op_mode_store (.ok 1) 2] attached0).cd.op_mode = BMM_OP_MODE_UNKNOWN ∧
    bmm_probe cfg0 (hwFailAt 11) envGood 0 Driver.init = (0, driver0) ∧
    (run cfg0 (hwFailAt 11) [.test_store (.ok 1) 2] attached0).cd.in_suspend = 0 ∧
    (run cfg0 (hwFailAt 11) [.test_store (.ok 1) 2] attached0).cd.op_mode =
      cfg0.SUSPEND_MODE := by
  decide

/-- C24 (amended): in every driver state reachable from a successful attach by any sequence
of operations (mode writes with any input and hardware outcome, self-tests, suspend, resume,
shutdown, and also the other endpoints and sampling runs), the flag `in_suspend` is 1 exactly
when the most recent `bmm_set_op_mode` call, whatever its hardware outcome, asked for
Suspend, and it is 0 otherwise. -/
theorem in_suspend_tracks_last_mode_request (c : Config) (hw : Hw) (env : ProbeEnv)
    (client : Nat) (d0 d1 : Driver) (cd1 : bmm_client_data) (ops : List Op)
    (hattach : bmm_probe c hw env client d0 = (0, d1)) (hcd : d1.clientdata = some cd1) :
    ((run c hw ops { cd := cd1, trace := d1.trace }).cd.in_suspend = 1 ↔
      last_mode_request (run c hw ops { cd := cd1, trace := d1.trace }).trace =
        some c.SUSPEND_MODE) ∧
    ((run c hw ops { cd := cd1, trace := d1.trace }).cd.in_suspend = 0 ↔
      last_mode_request (run c hw ops { cd := cd1, trace := d1.trace }).trace ≠
        some c.SUSPEND_MODE) := by
  have h1 := (bmm_probe_ok c hw env client d0 d1 hattach).2
  rw [hcd] at h1
  have h1 := Option.some.inj h1
  have h2 := bmm_probe_ok_trace c hw env client d0 d1 hattach
  have h0 : SuspendFlagOk c { cd := cd1, trace := d1.trace } := by
    unfold SuspendFlagOk
    simp only [h2, if_true]
    rw [h1]
  have h := run_flag c hw ops _ h0
  unfold SuspendFlagOk at h
  rw [h]
  constructor
  · split_ifs with hp
    · simp [hp]
    · simp [hp]
  · split_ifs with hp
    · simp [hp]
    · simp [hp]

/-- Witness of `in_suspend_tracks_last_mode_request`: the attach giving `attached0`, followed
by a mode write to Normal and a suspend. -/
theorem in_suspend_tracks_last_mode_request_witness :
    bmm_probe cfg0 hwGood envGood 0 Driver.init = (0, driver0) ∧
    driver0.clientdata = some attached0.cd ∧
    ((run cfg0 hwGood [.op_mode_store (.ok 0) 2, .suspend]
        { cd := attached0.cd, trace := driver0.trace }).cd.in_suspend = 1 ↔
      last_mode_request (run cfg0 hwGood [.op_mode_store (.ok 0) 2, .suspend]
        { cd := attached0.cd, trace := driver0.trace }).trace = some cfg0.SUSPEND_MODE) :=
  ⟨by decide, rfl,
    (in_suspend_tracks_last_mode_request cfg0 hwGood envGood 0 Driver.init driver0
      attached0.cd [.op_mode_store (.ok 0) 2, .suspend] (by decide) rfl).1⟩

end Bmm050

namespace Pn544

theorem wake_calls_append (t l : List Call) :
    wake_calls (t ++ l) = wake_calls t ++ wake_calls l := by
  unfold wake_calls
  rw [List.filterMap_append]

theorem alternating_succ (n : Nat) :
    alternating (n + 1) = alternating n ++ [if n % 2 = 0 then 1 else 0] := by
  unfold alternating
  rw [List.range_succ, List.map_append]
  rfl

/-- Appending an enable call after an even number of irq-wake calls, or a disable call after
an odd number, keeps the alternation. -/
theorem alternating_snoc (l : List Int) (x : Int) (h : l = alternating l.length)
    (hx : x = if l.length % 2 = 0 then 1 else 0) :
    l ++ [x] = alternating (l ++ [x]).length := by
  rw [List.length_append, List.length_singleton, alternating_succ, ← h, hx]

/-- One ioctl call keeps `BalanceOk`, with the power state updated by the call. -/
theorem ioctl_balance (P cmd arg : Nat) (s : State) (b : Bool) (h : BalanceOk s b) :
    BalanceOk (pn544_dev_ioctl P cmd arg s).2
      (if cmd = P then
        if arg = 1 ∨ arg = 2 then true else if arg = 0 then false else b
       else b) := by
  obtain ⟨h1, h2, h3⟩ := h
  have hon : ∀ l : List Call, wake_calls l = [] → b = false →
      BalanceOk { dev := { s.dev with balance_wake_irq := 1 },
                  trace := s.trace ++ l ++ [.irq_set_irq_wake s.dev.irq 1] } true := by
    intro l hl hb
    have hk : (wake_calls s.trace).length % 2 = 0 := by
      have := h3.not.mpr (by simp [hb])
      omega
    refine ⟨rfl, ?_, ?_⟩
    · simp only [wake_calls_append, hl, List.append_nil]
      have e : wake_calls [Call.irq_set_irq_wake s.dev.irq 1] = [1] := rfl
      rw [e]
      exact alternating_snoc _ _ h2 (by simp [hk])
    · simp only [wake_calls_append, hl, List.append_nil]
      have e : wake_calls [Call.irq_set_irq_wake s.dev.irq 1] = [1] := rfl
      rw [e, List.length_append, List.length_singleton]
      simp
      omega
  have hkeep : ∀ (l : List Call) (d : pn544_dev), wake_calls l = [] →
      d.balance_wake_irq = s.dev.balance_wake_irq →
      BalanceOk { dev := d, trace := s.trace ++ l } b := by
    intro l d hl hd
    refine ⟨hd.trans h1, ?_, ?_⟩
    · simp only [wake_calls_append, hl, List.append_nil]
      exact h2
    · simp only [wake_calls_append, hl, List.append_nil]
      exact h3
  have hoff : ∀ l : List Call, wake_calls l = [] → b = true →
      BalanceOk { dev := { s.dev with balance_wake_irq := 0, IsPrbsTestMode := false },
                  trace := s.trace ++ [.irq_set_irq_wake s.dev.irq 0] ++ l } false := by
    intro l hl hb
    have hk : (wake_calls s.trace).length % 2 = 1 := h3.mpr hb
    refine ⟨rfl, ?_, ?_⟩
    · simp only [wake_calls_append, hl, List.append_nil]
      have e : wake_calls [Call.irq_set_irq_wake s.dev.irq 0] = [0] := rfl
      rw [e]
      exact alternating_snoc _ _ h2 (by simp [hk])
    · simp only [wake_calls_append, hl, List.append_nil]
      have e : wake_calls [Call.irq_set_irq_wake s.dev.irq 0] = [0] := rfl
      rw [e, List.length_append, List.length_singleton]
      simp
      omega
  have hb01 : b = true ∨ b = false := by cases b <;> simp
  unfold pn544_dev_ioctl
  by_cases hc : cmd = P
  · simp only [hc, if_true]
    by_cases a2 : arg = 2
    · simp only [a2, if_true, Nat.reduceEqDiff, or_true]
      rcases hb01 with hb | hb
      · have hbal : ¬ (s.dev.balance_wake_irq = 0) := by rw [h1, hb]; simp
        simp only [hbal, if_false]
        have := hkeep [.gpio_set_value s.dev.ven_gpio 1, .gpio_set_value s.dev.firm_gpio 1,
          .msleep 20, .gpio_set_value s.dev.ven_gpio 0, .msleep 50,
          .gpio_set_value s.dev.ven_gpio 1, .msleep 100] s.dev rfl rfl
        rw [hb] at this
        exact this
      · have hbal : s.dev.balance_wake_irq = 0 := by rw [h1, hb]; simp
        simp only [hbal, if_true]
        exact hon _ rfl hb
    · by_cases a1 : arg = 1
      · simp only [a1, if_true, Nat.succ_ne_self, if_false, true_or, OfNat.one_ne_ofNat]
        rcases hb01 with hb | hb
        · have hbal : ¬ (s.dev.balance_wake_irq = 0) := by rw [h1, hb]; simp
          simp only [hbal, if_false]
          have := hkeep [.gpio_set_value s.dev.firm_gpio 0, .gpio_set_value s.dev.ven_gpio 1,
            .msleep 100] s.dev rfl rfl
          rw [hb] at this
          exact this
        · have hbal : s.dev.balance_wake_irq = 0 := by rw [h1, hb]; simp
          simp only [hbal, if_true]
          exact hon _ rfl hb
      · by_cases a0 : arg = 0
        · have n12 : ¬ ((0 : Nat) = 1 ∨ (0 : Nat) = 2) := by omega
          simp only [a0, n12, if_true, if_false, OfNat.zero_ne_ofNat, zero_ne_one]
          rcases hb01 with hb | hb
          · have hbal : s.dev.balance_wake_irq = 1 := by rw [h1, hb]; simp
            simp only [hbal, if_true]
            exact hoff _ rfl hb
          · have hbal : ¬ (s.dev.balance_wake_irq = 1) := by rw [h1, hb]; simp
            simp only [hbal, if_false]
            have := hkeep [.gpio_set_value s.dev.firm_gpio 0,
              .gpio_set_value s.dev.ven_gpio 0, .msleep 100]
              { s.dev with IsPrbsTestMode := false } rfl rfl
            rw [hb] at this
            exact this
        · have n12 : ¬ (arg = 1 ∨ arg = 2) := by omega
          rw [if_neg n12, if_neg a0, if_neg a2, if_neg a1, if_neg a0]
          by_cases a3 : arg = 3
          · rw [if_pos a3]
            have := hkeep [] { s.dev with IsPrbsTestMode := true } rfl rfl
            simpa using this
          · rw [if_neg a3]
            exact ⟨h1, h2, h3⟩
  · simp only [hc, if_false]
    exact ⟨h1, h2, h3⟩

/-- A sequence of ioctl calls keeps `BalanceOk`, with the power state of the sequence. -/
theorem ioctl_run_balance (P : Nat) (calls : List (Nat × Nat)) (s : State) (b : Bool)
    (h : BalanceOk s b) : BalanceOk (ioctl_run P calls s) (power_on_last P calls b) := by
  induction calls generalizing s b with
  | nil => exact h
  | cons call calls ih =>
    unfold ioctl_run power_on_last
    simp only [List.foldl_cons]
    exact ih _ _ (ioctl_balance P call.1 call.2 s b h)

/-- The probed state satisfies `BalanceOk` with the power off. -/
theorem probed_balance (ven_gpio firm_gpio irq : Int) :
    BalanceOk (probed ven_gpio firm_gpio irq) false := by
  refine ⟨rfl, rfl, ?_⟩
  simp [probed, wake_calls]

/-! ## NFC power ioctl -/

/-- C26: after every sequence of `pn544_dev_ioctl` calls from the probed state,
`balance_wake_irq` is 0 or 1, it is 1 exactly when the most recent `PN544_SET_PWR` call with
argument 0, 1 or 2 was a power-on (1 or 2), and the irq-wake calls issued so far alternate
enable, disable, enable, ... beginning with an enable.  In every state, a call with another
command or with an argument of 3 or more leaves `balance_wake_irq` unchanged and issues
nothing; with another command or an argument of 4 or more it returns `-EINVAL` and changes
nothing, and `PN544_SET_PWR` with argument 3 returns 0. -/
theorem balance_wake_irq_invariant (P : Nat) (ven_gpio firm_gpio irq : Int)
    (calls : List (Nat × Nat)) (s : State) (cmd arg : Nat) :
    ((ioctl_run P calls (probed ven_gpio firm_gpio irq)).dev.balance_wake_irq = 0 ∨
      (ioctl_run P calls (probed ven_gpio firm_gpio irq)).dev.balance_wake_irq = 1) ∧
    ((ioctl_run P calls (probed ven_gpio firm_gpio irq)).dev.balance_wake_irq = 1 ↔
      power_on_last P calls false = true) ∧
    wake_calls (ioctl_run P calls (probed ven_gpio firm_gpio irq)).trace =
      alternating (wake_calls (ioctl_run P calls (probed ven_gpio firm_gpio irq)).trace).length ∧
    ((cmd ≠ P ∨ 3 ≤ arg) →
      (pn544_dev_ioctl P cmd arg s).2.dev.balance_wake_irq = s.dev.balance_wake_irq ∧
      (pn544_dev_ioctl P cmd arg s).2.trace = s.trace) ∧
    ((cmd ≠ P ∨ 4 ≤ arg) → pn544_dev_ioctl P cmd arg s = (- Bmm050.EINVAL, s)) ∧
    (cmd = P → arg = 3 → (pn544_dev_ioctl P cmd arg s).1 = 0) := by
  obtain ⟨h1, h2, -⟩ := ioctl_run_balance P calls _ false (probed_balance ven_gpio firm_gpio irq)
  refine ⟨?_, ?_, h2, ?_, ?_, ?_⟩
  · rw [h1]
    cases power_on_last P calls false <;> simp
  · rw [h1]
    cases power_on_last P calls false <;> simp
  · intro h
    unfold pn544_dev_ioctl
    by_cases hc : cmd = P
    · have h3 : 3 ≤ arg := h.resolve_left (fun hn => hn hc)
      have a2 : ¬ arg = 2 := by omega
      have a1 : ¬ arg = 1 := by omega
      have a0 : ¬ arg = 0 := by omega
      rw [if_pos hc, if_neg a2, if_neg a1, if_neg a0]
      split_ifs <;> exact ⟨rfl, rfl⟩
    · rw [if_neg hc]
      exact ⟨rfl, rfl⟩
  · intro h
    unfold pn544_dev_ioctl
    by_cases hc : cmd = P
    · have h4 : 4 ≤ arg := h.resolve_left (fun hn => hn hc)
      have a3 : ¬ arg = 3 := by omega
      have a2 : ¬ arg = 2 := by omega
      have a1 : ¬ arg = 1 := by omega
      have a0 : ¬ arg = 0 := by omega
      rw [if_pos hc, if_neg a2, if_neg a1, if_neg a0, if_neg a3]
    · rw [if_neg hc]
  · intro hc a3
    unfold pn544_dev_ioctl
    have a2 : ¬ arg = 2 := by omega
    have a1 : ¬ arg = 1 := by omega
    have a0 : ¬ arg = 0 := by omega
    rw [if_pos hc, if_neg a2, if_neg a1, if_neg a0, if_pos a3]

/-- Witness of `balance_wake_irq_invariant`: power on, power off, then a call with another
command. -/
theorem balance_wake_irq_invariant_witness :
    ((8 : Nat) ≠ 7 ∨ 4 ≤ 1) ∧
    ((ioctl_run 7 [(7, 1), (7, 0)] (probed 10 11 12)).dev.balance_wake_irq = 1 ↔
      power_on_last 7 [(7, 1), (7, 0)] false = true) ∧
    pn544_dev_ioctl 7 8 1 (probed 10 11 12) = (- Bmm050.EINVAL, probed 10 11 12) :=
  ⟨by decide,
    (balance_wake_irq_invariant 7 10 11 12 [(7, 1), (7, 0)] (probed 10 11 12) 8 1).2.1,
    (balance_wake_irq_invariant 7 10 11 12 [(7, 1), (7, 0)] (probed 10 11 12) 8 1).2.2.2.2.1
      (by decide)⟩

end Pn544
